import Mathlib

/-!
Verification of the IBE mock-server core (in-memory entity store, ancillary
selection handlers and repricing engine) against its natural-language spec.

The Python sources are shallowly embedded:
  - JSON values become the inductive type `Json` (numbers as exact rationals:
    every amount the handlers construct is an integer-valued float, on which
    binary floating point arithmetic is exact);
  - the mutable `MockStateStore` becomes a record threaded through the
    operations; `now_utc_iso()` timestamps are supplied by the caller as an
    explicit `now : String` argument;
  - Python dicts become insertion-ordered association lists (`afind`, `aset`,
    `adel`), matching CPython's ordered-dict semantics: replacing a key keeps
    its position, a new key is appended;
  - code that can raise returns `Except PyErr`; in particular, attribute
    access on a `slots=True` dataclass instance for a name that is not a
    declared field raises `AttributeError`, which the embedding models
    explicitly (see `readFlightsSearch` below).
-/

namespace IbeMock

/-- Python `str.strip()` (restricted to whitespace stripping, which is the
only form the sources use). -/
def pyStrip (s : String) : String :=
  String.mk (((s.data.dropWhile Char.isWhitespace).reverse.dropWhile Char.isWhitespace).reverse)

/-- Python `str.upper()` (the sources only apply it to ASCII seat letters). -/
def pyUpper (s : String) : String :=
  String.mk (s.data.map Char.toUpper)

/-- JSON-ish Python values as the handlers manipulate them.  Numbers are exact
rationals: all amounts produced by the mock are integer-valued, where float
arithmetic is exact. -/
inductive Json where
  | null : Json
  | bool (b : Bool) : Json
  | num (q : ℚ) : Json
  | str (s : String) : Json
  | arr (xs : List Json) : Json
  | obj (kvs : List (String × Json)) : Json

/-- First binding of key `k` (Python dicts are duplicate-free, so first =
only). -/
def afind {κ α : Type} [DecidableEq κ] : List (κ × α) → κ → Option α
  | [], _ => none
  | p :: t, k => if p.1 = k then some p.2 else afind t k

/-- `d[k] = v` on an insertion-ordered dict: replace in place, else append. -/
def aset {κ α : Type} [DecidableEq κ] : List (κ × α) → κ → α → List (κ × α)
  | [], k, v => [(k, v)]
  | p :: t, k, v => if p.1 = k then (k, v) :: t else p :: aset t k v

/-- `d.pop(k, None)` on a duplicate-free dict. -/
def adel {κ α : Type} [DecidableEq κ] (m : List (κ × α)) (k : κ) : List (κ × α) :=
  m.filter (fun p => p.1 ≠ k)

/-- `list(d.values())`. -/
def avalues {κ α : Type} (m : List (κ × α)) : List α :=
  m.map Prod.snd

/-- Keys are pairwise distinct (holds for every dict the embedding builds). -/
def NodupKeys {κ α : Type} (m : List (κ × α)) : Prop :=
  (m.map Prod.fst).Nodup

/-- Python truthiness of a JSON value. -/
def truthy : Json → Bool
  | .null => false
  | .bool b => b
  | .num q => q ≠ 0
  | .str s => s ≠ ""
  | .arr xs => !xs.isEmpty
  | .obj kvs => !kvs.isEmpty

/-- Python `str()` of a JSON value.  Integer-valued numbers render as their
numeral; the handlers never stringify non-integer numbers or containers, so
those cases carry stable placeholders rather than CPython's repr. -/
def pyStr : Json → String
  | .null => "None"
  | .bool true => "True"
  | .bool false => "False"
  | .num q => if q.den = 1 then toString q.num else toString q
  | .str s => s
  | .arr _ => "<list>"
  | .obj _ => "<dict>"

/-- `d.get(k)` with Python's `None` for a missing key or a non-dict receiver. -/
def jget : Json → String → Json
  | .obj kvs, k => (afind kvs k).getD .null
  | _, _ => .null

/-- `d[k] = v` (no-op on non-dicts, which the handlers never hit). -/
def jset (j : Json) (k : String) (v : Json) : Json :=
  match j with
  | .obj kvs => .obj (aset kvs k v)
  | other => other

/-- `str(d.get(k) or "")`. -/
def jstrField (d : Json) (k : String) : String :=
  let v := jget d k
  if truthy v then pyStr v else ""

/-- `_safe_json` from handlers/flights_search.py: pass dicts through, anything
else becomes `{}`. -/
def _safe_json (j : Json) : Json :=
  match j with
  | .obj kvs => .obj kvs
  | _ => .obj []

/-- `_safe_list`: pass lists through, anything else becomes `[]`. -/
def _safe_list (j : Json) : List Json :=
  match j with
  | .arr xs => xs
  | _ => []

/-- Decimal value of a digit string. -/
def digitsVal (ds : List Char) : Nat :=
  ds.foldl (fun n c => n * 10 + (c.toNat - '0'.toNat)) 0

/-- Python `int(str)` restricted to the sign-and-digits grammar (stored row
numbers are plain digit strings; exotic forms such as underscores are not
produced by the mock).  `none` models `ValueError`. -/
def pyInt (s : String) : Option Int :=
  let t := pyStrip s
  match t.data with
  | [] => none
  | '-' :: ds => if ds ≠ [] ∧ ds.all Char.isDigit then some (-(digitsVal ds : Int)) else none
  | '+' :: ds => if ds ≠ [] ∧ ds.all Char.isDigit then some ((digitsVal ds : Int)) else none
  | ds => if ds.all Char.isDigit then some ((digitsVal ds : Int)) else none

/-- Python `float(x)` on a JSON value.  Strings use the plain decimal grammar
(the mock only ever stores numbers here); `none` models `TypeError` /
`ValueError`. -/
def pyFloat (j : Json) : Option ℚ :=
  match j with
  | .num q => some q
  | .bool b => some (if b then 1 else 0)
  | .str s =>
      let t := pyStrip s
      let core := fun (ds : List Char) =>
        match ds.span Char.isDigit with
        | (intPart, []) =>
            if intPart ≠ [] then some ((digitsVal intPart : ℚ)) else none
        | (intPart, '.' :: fracPart) =>
            if (intPart ≠ [] ∨ fracPart ≠ []) ∧ fracPart.all Char.isDigit then
              some ((digitsVal intPart : ℚ) +
                (digitsVal fracPart : ℚ) / ((10 : ℚ) ^ fracPart.length))
            else none
        | _ => none
      (match t.data with
       | '-' :: ds => (core ds).map Neg.neg
       | '+' :: ds => core ds
       | ds => core ds)
  | _ => none

/-- Round-half-to-even on rationals; `round(x, 2)` in the sources is applied
only to values on which binary floating point is exact, where it agrees with
the rational computation. -/
def roundHalfEven (q : ℚ) : Int :=
  let f : Int := ⌊q⌋
  let r : ℚ := q - f
  if r < 1/2 then f
  else if 1/2 < r then f + 1
  else if f % 2 = 0 then f else f + 1

/-- Python `round(x, 2)`. -/
def pyRound2 (q : ℚ) : ℚ :=
  (roundHalfEven (q * 100) : ℚ) / 100

/-! ## The entity store (src/mock_server/state.py and headers.py)

The dataclasses below mirror `state.py` field for field.  They are declared
with `slots=True` in the source, so they have exactly these attributes:
reading or writing any other attribute name raises `AttributeError`.  In
particular `ShoppingCartState` has neither a `flights_search` nor a
`selection_confirmed` field and `OrderState` has no `added_air_id` field,
although several handlers access those names. -/

/-- `RequestContext` from headers.py (warnings are JSON dicts). -/
structure RequestContext where
  application : String
  flow : String
  locale : String
  conversation_id : String
  warnings : List Json

structure ConversationState where
  conversation_id : String
  application : String
  flow : String
  locale : String
  created_at : String
  updated_at : String

structure OrderState where
  order_id : String
  conversation_id : String
  currency : String := "USD"
  status : String := "DRAFT"
  created_at : String
  updated_at : String
  revision : Nat := 0

structure AirState where
  air_id : String
  order_id : String
  shopping_cart_id : String
  segments : List Json := []
  ancillaries : List (String × Json) := []
  created_at : String
  updated_at : String
  revision : Nat := 0

structure ShoppingCartState where
  shopping_cart_id : String
  order_id : String
  status : String := "OPEN"
  selected_airs : List String := []
  travellers : List Json := []
  customer : Json := .obj []
  pricing : Json := .obj []
  created_at : String
  updated_at : String
  revision : Nat := 0

structure ProfileState where
  profile_id : String
  data : Json := .obj []
  created_at : String
  updated_at : String

/-- The in-memory store.  All mutation runs under one lock in the source; the
embedding threads the store value sequentially, which realizes the same
serialized semantics. -/
structure MockStateStore where
  global_revision : Nat := 0
  conversations : List (String × ConversationState) := []
  orders : List (String × OrderState) := []
  shopping_carts : List (String × ShoppingCartState) := []
  airs : List (String × AirState) := []
  profiles : List (String × ProfileState) := []

/-- `touch`: bump and return the new global revision. -/
def MockStateStore.touch (s : MockStateStore) : Nat × MockStateStore :=
  (s.global_revision + 1, { s with global_revision := s.global_revision + 1 })

def ensure_conversation (ctx : RequestContext) (now : String) (s : MockStateStore) :
    ConversationState × Bool × MockStateStore :=
  match afind s.conversations ctx.conversation_id with
  | some existing =>
      let e := { existing with updated_at := now }
      (e, false, { s with conversations := aset s.conversations ctx.conversation_id e })
  | none =>
      let conv : ConversationState :=
        { conversation_id := ctx.conversation_id, application := ctx.application,
          flow := ctx.flow, locale := ctx.locale, created_at := now, updated_at := now }
      (conv, true,
        { s with conversations := aset s.conversations ctx.conversation_id conv,
                 global_revision := s.global_revision + 1 })

def ensure_order (order_id : String) (ctx : RequestContext) (now : String) (s : MockStateStore) :
    OrderState × Bool × MockStateStore :=
  match afind s.orders order_id with
  | some existing =>
      let e := { existing with updated_at := now }
      (e, false, { s with orders := aset s.orders order_id e })
  | none =>
      let g := s.global_revision + 1
      let order : OrderState :=
        { order_id := order_id, conversation_id := ctx.conversation_id,
          created_at := now, updated_at := now, revision := g }
      (order, true, { s with global_revision := g, orders := aset s.orders order_id order })

def ensure_shopping_cart (order_id shopping_cart_id : String) (now : String)
    (s : MockStateStore) : ShoppingCartState × Bool × MockStateStore :=
  match afind s.shopping_carts shopping_cart_id with
  | some existing =>
      let e := { existing with updated_at := now }
      (e, false, { s with shopping_carts := aset s.shopping_carts shopping_cart_id e })
  | none =>
      let g := s.global_revision + 1
      let cart : ShoppingCartState :=
        { shopping_cart_id := shopping_cart_id, order_id := order_id,
          created_at := now, updated_at := now, revision := g }
      (cart, true,
        { s with global_revision := g, shopping_carts := aset s.shopping_carts shopping_cart_id cart })

def ensure_air (order_id shopping_cart_id air_id : String) (now : String)
    (s : MockStateStore) : AirState × Bool × MockStateStore :=
  match afind s.airs air_id with
  | some existing =>
      let e := { existing with updated_at := now }
      (e, false, { s with airs := aset s.airs air_id e })
  | none =>
      let g := s.global_revision + 1
      let air : AirState :=
        { air_id := air_id, order_id := order_id, shopping_cart_id := shopping_cart_id,
          created_at := now, updated_at := now, revision := g }
      (air, true, { s with global_revision := g, airs := aset s.airs air_id air })

def ensure_profile (profile_id : String) (now : String) (s : MockStateStore) :
    ProfileState × Bool × MockStateStore :=
  match afind s.profiles profile_id with
  | some existing =>
      let e := { existing with updated_at := now }
      (e, false, { s with profiles := aset s.profiles profile_id e })
  | none =>
      let prof : ProfileState := { profile_id := profile_id, created_at := now, updated_at := now }
      (prof, true,
        { s with profiles := aset s.profiles profile_id prof,
                 global_revision := s.global_revision + 1 })

/-- The raw path-parameter mapping as the router hands it over (`None` for an
absent key). -/
structure PathParams where
  orderId : Option String := none
  order_id : Option String := none
  shoppingCartId : Option String := none
  shopping_cart_id : Option String := none
  airId : Option String := none
  air_id : Option String := none
  profileId : Option String := none
  profile_id : Option String := none

/-- `(params.get(a) or params.get(b) or "").strip()`. -/
def effParam (a b : Option String) : String :=
  pyStrip (match a with
    | some x => if x ≠ "" then x else (match b with | some y => if y ≠ "" then y else "" | none => "")
    | none => (match b with | some y => if y ≠ "" then y else "" | none => ""))

def wConvCreated (cid : String) : Json :=
  .obj [("code", .str "AUTO_CREATED"),
        ("message", .str "Conversation was auto-created by mock."),
        ("details", .obj [("conversationId", .str cid)])]

def wOrderCreated (oid : String) : Json :=
  .obj [("code", .str "AUTO_CREATED"),
        ("message", .str "Order was auto-created by mock."),
        ("details", .obj [("orderId", .str oid)])]

def wCartCreated (oid cid : String) : Json :=
  .obj [("code", .str "AUTO_CREATED"),
        ("message", .str "Shopping cart was auto-created by mock."),
        ("details", .obj [("orderId", .str oid), ("shoppingCartId", .str cid)])]

def wAirCreated (oid cid aid : String) : Json :=
  .obj [("code", .str "AUTO_CREATED"),
        ("message", .str "Air was auto-created by mock."),
        ("details", .obj [("orderId", .str oid), ("shoppingCartId", .str cid), ("airId", .str aid)])]

def wProfileCreated (pid : String) : Json :=
  .obj [("code", .str "AUTO_CREATED"),
        ("message", .str "Profile was auto-created by mock."),
        ("details", .obj [("profileId", .str pid)])]

/-- `ensure_from_request` from state.py: ensure the entities referenced by the
common path params and return one `AUTO_CREATED` warning per entity created. -/
def ensure_from_request (ctx : RequestContext) (pp : PathParams) (now : String)
    (s₀ : MockStateStore) : List Json × MockStateStore :=
  let (_, convCreated, s₁) := ensure_conversation ctx now s₀
  let ws₀ := if convCreated then [wConvCreated ctx.conversation_id] else []
  let order_id := effParam pp.orderId pp.order_id
  let cart_id := effParam pp.shoppingCartId pp.shopping_cart_id
  let air_id := effParam pp.airId pp.air_id
  let profile_id := effParam pp.profileId pp.profile_id
  let (ws₁, s₂) :=
    if order_id ≠ "" then
      let (_, created, s') := ensure_order order_id ctx now s₁
      (ws₀ ++ (if created then [wOrderCreated order_id] else []), s')
    else (ws₀, s₁)
  let (ws₂, s₃) :=
    if order_id ≠ "" ∧ cart_id ≠ "" then
      let (_, created, s') := ensure_shopping_cart order_id cart_id now s₂
      (ws₁ ++ (if created then [wCartCreated order_id cart_id] else []), s')
    else (ws₁, s₂)
  let (ws₃, s₄) :=
    if order_id ≠ "" ∧ cart_id ≠ "" ∧ air_id ≠ "" then
      let (air, created, s') := ensure_air order_id cart_id air_id now s₃
      let (cart, _, s'') := ensure_shopping_cart order_id cart_id now s'
      let s''' :=
        if air.air_id ∈ cart.selected_airs then s''
        else
          let g := s''.global_revision + 1
          let cart' := { cart with selected_airs := cart.selected_airs ++ [air.air_id],
                                   revision := g }
          { s'' with global_revision := g,
                     shopping_carts := aset s''.shopping_carts cart_id cart' }
      (ws₂ ++ (if created then [wAirCreated order_id cart_id air_id] else []), s''')
    else (ws₂, s₃)
  let (ws₄, s₅) :=
    if profile_id ≠ "" then
      let (_, created, s') := ensure_profile profile_id now s₄
      (ws₃ ++ (if created then [wProfileCreated profile_id] else []), s')
    else (ws₃, s₄)
  (ws₄, s₅)

/-! ## Seat selection and the repricing engine (src/mock_server/handlers/seats.py) -/

/-- Python exceptions the embedded code can raise. -/
inductive PyErr where
  | attributeError (typeName attr : String) : PyErr
deriving DecidableEq

def pyErrType : PyErr → String
  | .attributeError _ _ => "AttributeError"

def pyErrMessage : PyErr → String
  | .attributeError ty attr => "'" ++ ty ++ "' object has no attribute '" ++ attr ++ "'"

/-- seats.py line 330 (and flights_selection.py line 183 etc.) reads
`cart_state.flights_search`.  `ShoppingCartState` is a `slots=True` dataclass
with no `flights_search` field (state.py lines 58-70), so this attribute
access raises `AttributeError` on every call. -/
def readFlightsSearch (_cart : ShoppingCartState) : Except PyErr Json :=
  .error (.attributeError "ShoppingCartState" "flights_search")

/-- flights_selection.py lines 309/346/350 assign
`cart_state.selection_confirmed`; the slotted `ShoppingCartState` has no such
field, so the assignment raises `AttributeError`. -/
def writeSelectionConfirmed (_cart : ShoppingCartState) (_b : Bool) :
    Except PyErr ShoppingCartState :=
  .error (.attributeError "ShoppingCartState" "selection_confirmed")

/-- `_seat_price` from seats.py: fixed row/column fee table. -/
def _seat_price (row_number seat_number : String) : ℚ :=
  match pyInt row_number with
  | none => 0
  | some r =>
      let col := pyUpper (pyStrip seat_number)
      if 1 ≤ r ∧ r ≤ 9 then 0
      else if 10 ≤ r ∧ r ≤ 14 then
        (if r = 10 ∧ (col = "D" ∨ col = "F") then 25 else 0)
      else if (r = 15 ∨ r = 40) ∧ (col = "D" ∨ col = "F" ∨ col = "G") then 25
      else if (r = 15 ∨ r = 40) ∧
          (col = "A" ∨ col = "B" ∨ col = "C" ∨ col = "H" ∨ col = "J" ∨ col = "K") then 30
      else 0

/-- `str(a or b or "")` on two JSON values. -/
def jstrOr2 (a b : Json) : String :=
  if truthy a then pyStr a else if truthy b then pyStr b else ""

/-- One iteration of the `_compute_flights_total` loop (a `continue` returns
the accumulator unchanged). -/
def flightsTotalStep (acc : ℚ × String) (os_ : Json) : ℚ × String :=
  let option_set := _safe_json os_
  let sel := _safe_json (jget option_set "selection")
  let option_id := jstrOr2 (jget sel "optionId") (jget option_set "optionId")
  let solution_id₀ := jstrOr2 (jget sel "solutionId") (jget option_set "solutionId")
  if option_id = "" then acc
  else
    match jget option_set "options" with
    | .arr options =>
        match options.find? (fun opt => pyStr (jget (_safe_json opt) "id") == option_id) with
        | none => acc
        | some opt =>
            let option_obj := _safe_json opt
            let solution_id :=
              if solution_id₀ = "" then jstrField option_obj "cheapestSolutionId" else solution_id₀
            match jget option_obj "solutions" with
            | .obj sols =>
                match afind sols solution_id with
                | some (.obj sol) =>
                    (match jget (.obj sol) "pricing" with
                     | .obj pricing =>
                         (match jget (.obj pricing) "total" with
                          | .obj total =>
                              (match jget (.obj total) "price" with
                               | .obj price =>
                                   (match pyFloat (jget (.obj price) "amount") with
                                    | none => acc
                                    | some amount =>
                                        let currency :=
                                          if truthy (jget (.obj price) "currency") then
                                            pyStr (jget (.obj price) "currency")
                                          else acc.2
                                        (acc.1 + amount, currency))
                               | _ => acc)
                          | _ => acc)
                     | _ => acc)
                | _ => acc
            | _ => acc
    | _ => acc

/-- `_compute_flights_total` from seats.py: flight total of the stored
flights-search selection plus the last resolved currency. -/
def _compute_flights_total (search_obj : Json) : ℚ × String :=
  match jget search_obj "optionSets" with
  | .arr option_sets => option_sets.foldl flightsTotalStep (0, "USD")
  | _ => (0, "USD")

def _make_plain_price (amount : ℚ) (currency : String) : Json :=
  .obj [("amount", .num (pyRound2 amount)), ("currency", .str currency)]

def _make_price (amount : ℚ) (currency : String) : Json :=
  .obj [("price", _make_plain_price amount currency), ("redemption", .null)]

def _make_pricing (total_amount : ℚ) (currency : String) : Json :=
  .obj [("total", _make_price total_amount currency)]

/-- Seat-fee sum over stored `seatSelections` (loop body of `_reprice_cart`). -/
def seatSelectionsSeatTotal (l : List Json) : ℚ :=
  l.foldl (fun t s =>
    let sd := _safe_json s
    t + _seat_price (jstrField sd "rowNumber") (jstrField sd "seatNumber")) 0

/-- Amount sum over stored `baggageItems` (loop body of `_reprice_cart`);
an unconvertible `amount` contributes nothing. -/
def baggageItemsTotal (items : List Json) : ℚ :=
  items.foldl (fun t it =>
    let itd := _safe_json it
    match pyFloat (jget itd "amount") with
    | some a => t + a
    | none => t) 0

/-- Amount sum over stored `mealItems` (loop body of `_reprice_cart`). -/
def mealItemsTotal (items : List Json) : ℚ :=
  items.foldl (fun t it =>
    let itd := _safe_json it
    let pricing := _safe_json (jget itd "pricing")
    let amount := jget (_safe_json (jget (_safe_json (jget pricing "total")) "price")) "amount"
    match pyFloat (if truthy amount then amount else .num 0) with
    | some a => t + a
    | none => t) 0

/-- `_reprice_cart` from seats.py.  The first statement after the two
`ensure_*` calls reads `cart_state.flights_search`, which raises
`AttributeError` (see `readFlightsSearch`); the remainder of the function is
embedded faithfully but is unreachable with the current `state.py`. -/
def _reprice_cart (ctx : RequestContext) (order_id cart_id air_id now : String)
    (s : MockStateStore) : Except PyErr (Json × String) × MockStateStore :=
  let (cart_state, _, s₁) := ensure_shopping_cart order_id cart_id now s
  let (order_state, _, s₂) := ensure_order order_id ctx now s₁
  match readFlightsSearch cart_state with
  | .error e => (.error e, s₂)
  | .ok fs =>
      let currency₀ := if order_state.currency ≠ "" then order_state.currency else "USD"
      let (flights_total, currency₁) :=
        if truthy fs then _compute_flights_total (_safe_json fs) else (0, currency₀)
      let (air_state, _, s₃) := ensure_air order_id cart_id air_id now s₂
      let seat_total :=
        match afind air_state.ancillaries "seatSelections" with
        | some (.arr l) => seatSelectionsSeatTotal l
        | _ => 0
      let bag_total :=
        match afind air_state.ancillaries "baggageItems" with
        | some (.arr l) => baggageItemsTotal l
        | _ => 0
      let meal_total :=
        match afind air_state.ancillaries "mealItems" with
        | some (.arr l) => mealItemsTotal l
        | _ => 0
      let total := flights_total + seat_total + bag_total + meal_total
      let pricing := _make_pricing total currency₁
      let (rev₁, s₄) := MockStateStore.touch s₃
      let cart' := { cart_state with pricing := pricing, updated_at := now, revision := rev₁ }
      let s₅ := { s₄ with shopping_carts := aset s₄.shopping_carts cart_id cart' }
      let (rev₂, s₆) := MockStateStore.touch s₅
      let order' := { order_state with currency := currency₁, updated_at := now, revision := rev₂ }
      let s₇ := { s₆ with orders := aset s₆.orders order_id order' }
      (.ok (pricing, currency₁), s₇)

/-- `str(s.get("passengerId") or "").strip()` on a selection entry. -/
def selPid (s : Json) : String := pyStrip (jstrField s "passengerId")

def selSid (s : Json) : String := pyStrip (jstrField s "segmentId")

def selRn (s : Json) : String := pyStrip (jstrField s "rowNumber")

/-- `str(s.get("seatNumber") or "").strip().upper()`. -/
def selSn (s : Json) : String := pyUpper (pyStrip (jstrField s "seatNumber"))

/-- The unstripped read `str(other.get("passengerId") or "")` used for the
eviction key in `_update_store_seats`. -/
def rawPid (s : Json) : String := jstrField s "passengerId"

/-- One iteration of the stored-selection indexing loop
(`_update_store_seats` lines 209-218). -/
def loadSeatStep (maps : List ((String × String) × Json) × List ((String × String) × Json))
    (s : Json) :
    List ((String × String) × Json) × List ((String × String) × Json) :=
  let pid := selPid s
  let sid := selSid s
  let rn := selRn s
  let sn := selSn s
  if pid = "" ∨ sid = "" then maps
  else
    (aset maps.1 (pid, sid) s,
     if rn ≠ "" ∧ sn ≠ "" then aset maps.2 (sid, rn ++ sn) s else maps.2)

/-- Building `by_psg_seg` and `by_seg_seat` from the stored selections
(`_update_store_seats` lines 206-218). -/
def loadSeatMaps (existing_norm : List Json) :
    List ((String × String) × Json) × List ((String × String) × Json) :=
  existing_norm.foldl loadSeatStep ([], [])

def wSeatInvalid (pid sid rn sn : String) : Json :=
  .obj [("code", .str "SEAT_SELECTION_INVALID"),
        ("message", .str "Seat selection entry is missing required fields; ignored."),
        ("details", .obj [("passengerId", .str pid), ("segmentId", .str sid),
                          ("rowNumber", .str rn), ("seatNumber", .str sn)])]

def wSeatReassigned (sid seatKey fromPid toPid : String) : Json :=
  .obj [("code", .str "SEAT_REASSIGNED"),
        ("message", .str "Seat was previously assigned to another passenger; assignment moved."),
        ("details", .obj [("segmentId", .str sid), ("seat", .str seatKey),
                          ("fromPassengerId", .str fromPid), ("toPassengerId", .str toPid)])]

/-- The `sel_obj` dict built for a valid incoming selection
(`_update_store_seats` lines 249-260). -/
def mkSelObj (s : Json) : Json :=
  .obj [("passengerId", .str (selPid s)), ("segmentId", .str (selSid s)),
        ("rowNumber", .str (selRn s)), ("seatNumber", .str (selSn s)),
        ("priorityMember", jget s "priorityMember"),
        ("priorityClassicMember", jget s "priorityClassicMember"),
        ("specialAssistance", jget s "specialAssistance"),
        ("redemption", jget s "redemption"),
        ("usePoints", jget s "usePoints"),
        ("smiFree", jget s "smiFree")]

/-- One iteration of the incoming-selection loop of `_update_store_seats`
(lines 220-263). -/
def seatStep (st : List ((String × String) × Json) × List ((String × String) × Json) × List Json)
    (s : Json) :
    List ((String × String) × Json) × List ((String × String) × Json) × List Json :=
  let (m, t, ws) := st
  let pid := selPid s
  let sid := selSid s
  let rn := selRn s
  let sn := selSn s
  if pid = "" ∨ sid = "" ∨ rn = "" ∨ sn = "" then
    (m, t, ws ++ [wSeatInvalid pid sid rn sn])
  else
    let seat_key := rn ++ sn
    let (m₁, ws₁) :=
      match afind t (sid, seat_key) with
      | some other =>
          if rawPid other ≠ pid then
            (adel m (rawPid other, sid), ws ++ [wSeatReassigned sid seat_key (rawPid other) pid])
          else (m, ws)
      | none => (m, ws)
    (aset m₁ (pid, sid) (mkSelObj s), aset t (sid, seat_key) (mkSelObj s), ws₁)

/-- The merge core of `_update_store_seats` (lines 200-265): build the two
dicts from the stored list, process the incoming selections, and read the
merged list back out of `by_psg_seg`. -/
def mergeSeatSelections (existing_norm new_selections : List Json) :
    List Json × List Json :=
  let (m, t) := loadSeatMaps existing_norm
  let (m', _, warnings) := new_selections.foldl seatStep (m, t, [])
  (avalues m', warnings)

/-- `_update_store_seats` from seats.py: persist seat-selection changes,
returning `(updated, warnings)` and the mutated store. -/
def _update_store_seats (ctx : RequestContext) (order_id cart_id air_id : String)
    (new_selections : List Json) (now : String) (s : MockStateStore) :
    (List Json × List Json) × MockStateStore :=
  let (_, _, s₁) := ensure_order order_id ctx now s
  let (_, _, s₂) := ensure_shopping_cart order_id cart_id now s₁
  let (air_state, _, s₃) := ensure_air order_id cart_id air_id now s₂
  let existing :=
    match afind air_state.ancillaries "seatSelections" with
    | some (.arr l) => l
    | _ => []
  let existing_norm := existing.map _safe_json
  let (updated, warnings) := mergeSeatSelections existing_norm new_selections
  let (rev, s₄) := MockStateStore.touch s₃
  let air' := { air_state with
    ancillaries := aset air_state.ancillaries "seatSelections" (.arr updated),
    updated_at := now, revision := rev }
  ((updated, warnings), { s₄ with airs := aset s₄.airs air_id air' })

def wSeatCleared (segment_id : Option String) (air_id : String) : Json :=
  .obj [("code", .str "SEAT_SELECTION_CLEARED"),
        ("message", .str "Seat selections were cleared in the mock."),
        ("details", .obj [("segmentId", match segment_id with | some t => .str t | none => .null),
                          ("airId", .str air_id)])]

/-- `_delete_store_seats` from seats.py. -/
def _delete_store_seats (ctx : RequestContext) (order_id cart_id air_id : String)
    (segment_id : Option String) (now : String) (s : MockStateStore) :
    (List Json × List Json) × MockStateStore :=
  let (_, _, s₁) := ensure_order order_id ctx now s
  let (_, _, s₂) := ensure_shopping_cart order_id cart_id now s₁
  let (air_state, _, s₃) := ensure_air order_id cart_id air_id now s₂
  let existing :=
    match afind air_state.ancillaries "seatSelections" with
    | some (.arr l) => l
    | _ => []
  let existing_norm := existing.map _safe_json
  let (seg, kept) :=
    match segment_id with
    | some raw =>
        if raw ≠ "" then
          let sg := pyStrip raw
          (some sg, existing_norm.filter (fun e => selSid e ≠ sg))
        else (none, ([] : List Json))
    | none => (none, [])
  let (rev, s₄) := MockStateStore.touch s₃
  let air' := { air_state with
    ancillaries := aset air_state.ancillaries "seatSelections" (.arr kept),
    updated_at := now, revision := rev }
  ((kept, [wSeatCleared seg air_id]), { s₄ with airs := aset s₄.airs air_id air' })

/-- `_extract_seat_selections` from seats.py: normalize the request body into
`SeatSelection`-like dicts. -/
def _extract_seat_selections (payload : Json) : List Json :=
  match payload with
  | .obj _ =>
      let raw := jget payload "seatSelections"
      let raw_list := match raw with | .obj kvs => [Json.obj kvs] | _ => _safe_list raw
      raw_list.filterMap (fun item =>
        let d := _safe_json item
        if truthy d then
          some (Json.obj
            [("passengerId", .str (pyStrip (jstrField d "passengerId"))),
             ("segmentId", .str (pyStrip (jstrField d "segmentId"))),
             ("rowNumber", .str (pyStrip (jstrField d "rowNumber"))),
             ("seatNumber", .str (pyStrip (jstrField d "seatNumber"))),
             ("priorityMember", jget d "priorityMember"),
             ("priorityClassicMember", jget d "priorityClassicMember"),
             ("specialAssistance", jget d "specialAssistance"),
             ("redemption", jget d "redemption"),
             ("usePoints", jget d "usePoints"),
             ("smiFree", jget d "smiFree")])
        else none)
  | _ => []

/-! ## Baggage selection (src/mock_server/handlers/bags.py) -/

/-- `stable_id` from versioning.py derives `prefix + "-" + sha1(seed)[:length]`.
The SHA-1 digest is not reimplemented here (no claim depends on digest
values, only on two applications to equal seeds being equal, which any
function provides); the seed stands in for the truncated digest. -/
def stable_id (pre seed : String) (_length : Nat) : String :=
  pre ++ "-" ++ seed

/-- `_extract_baggage_selections` from bags.py. -/
def _extract_baggage_selections (payload : Json) : List Json :=
  match payload with
  | .obj _ =>
      let raw := jget payload "baggageSelections"
      let raw_list := match raw with | .obj kvs => [Json.obj kvs] | _ => _safe_list raw
      raw_list.filterMap (fun item =>
        let d := _safe_json item
        if truthy d then
          let ids :=
            match jget d "baggageIds" with
            | .arr xs => (xs.map (fun x => pyStrip (pyStr x))).filter (fun t => t ≠ "")
            | _ => []
          some (Json.obj
            [("passengerId", .str (pyStrip (jstrField d "passengerId"))),
             ("routeId", .str (pyStrip (jstrOr2 (jget d "routeId") (jget d "segmentId")))),
             ("baggageIds", .arr (ids.map Json.str)),
             ("redemption", jget d "redemption"),
             ("usePoints", jget d "usePoints"),
             ("equipmentType", jget d "equipmentType")])
        else none)
  | _ => []

/-- `_make_bag_item` from bags.py: first bag (idx 0) discounted at 15.0,
second bag regular at 30.0. -/
def _make_bag_item (passenger_id route_id baggage_id : String) (idx : Nat)
    (currency now : String) : Json :=
  let discounted := idx = 0
  let amount : ℚ := if discounted then 15 else 30
  .obj [("id", .str (stable_id "bag"
          (passenger_id ++ "|" ++ route_id ++ "|" ++ baggage_id ++ "|" ++ toString idx) 16)),
        ("passengerId", .str passenger_id),
        ("routeId", .str route_id),
        ("baggageId", .str baggage_id),
        ("discounted", .bool discounted),
        ("amount", .num amount),
        ("currency", .str currency),
        ("code", .str (if discounted then "BAG_DISCOUNTED" else "BAG_REGULAR")),
        ("name", .str (if discounted then "1 bag discounted" else "1 bag")),
        ("createdAt", .str now)]

def wBagInvalid (rid : String) : Json :=
  .obj [("code", .str "BAG_SELECTION_INVALID"),
        ("message", .str "Missing passengerId in baggage selection; ignored."),
        ("details", .obj [("routeId", .str rid)])]

def wBagLimit (pid rid : String) (requested : Nat) : Json :=
  .obj [("code", .str "BAG_LIMIT_APPLIED"),
        ("message", .str "Mock limits baggage to 2 items per passenger and route."),
        ("details", .obj [("passengerId", .str pid), ("routeId", .str rid),
                          ("requested", .num requested), ("kept", .num 2)])]

/-- `str(sel.get("routeId") or "").strip() or "route-0"`: the effective route
id of a baggage selection (an empty one is REPLACED by the default, the
entry is not dropped). -/
def bagRid (sel : Json) : String :=
  let rid₀ := pyStrip (jstrField sel "routeId")
  if rid₀ ≠ "" then rid₀ else "route-0"

/-- One iteration of the selection loop in `_apply_baggage` (bags.py lines
123-150); the accumulator carries `(normalized, items, warnings)`. -/
def bagStep (currency now : String) (st : List Json × List Json × List Json) (sel : Json) :
    List Json × List Json × List Json :=
  let (normalized, items, ws) := st
  let pid := pyStrip (jstrField sel "passengerId")
  let rid := bagRid sel
  let idsJ := jget sel "baggageIds"
  let ids : List Json :=
    match (if truthy idsJ then idsJ else .arr []) with
    | .arr xs => xs
    | _ => []
  if pid = "" then (normalized, items, ws ++ [wBagInvalid rid])
  else
    let ids2 := ((ids.map (fun x => pyStrip (pyStr x))).filter (fun t => t ≠ "")).take 2
    let normalized' := normalized ++
      [Json.obj [("passengerId", .str pid), ("routeId", .str rid),
                 ("baggageIds", .arr (ids2.map Json.str))]]
    let items' := items ++
      (ids2.enum.map (fun p => _make_bag_item pid rid p.2 p.1 currency now))
    let ws' := if 2 < ids.length then ws ++ [wBagLimit pid rid ids.length] else ws
    (normalized', items', ws')

/-- `_apply_baggage` from bags.py: persist baggage selections and priced
items; returns `(selections, items, warnings)` and the mutated store.  Note
the stored `baggageSelections` list is wholly replaced by the normalized
incoming payload. -/
def _apply_baggage (ctx : RequestContext) (order_id cart_id air_id : String)
    (baggage_selections : List Json) (currency now : String) (s : MockStateStore) :
    (List Json × List Json × List Json) × MockStateStore :=
  let (_, _, s₁) := ensure_order order_id ctx now s
  let (_, _, s₂) := ensure_shopping_cart order_id cart_id now s₁
  let (air_state, _, s₃) := ensure_air order_id cart_id air_id now s₂
  let (normalized, items, warnings) := baggage_selections.foldl (bagStep currency now) ([], [], [])
  let (rev, s₄) := MockStateStore.touch s₃
  let pricingBlock : Json :=
    .obj [("currency", .str currency),
          ("items", .arr items),
          ("total", .obj [("amount", .num (pyRound2 (items.foldl (fun t it =>
                            t + (pyFloat (jget it "amount")).getD 0) 0))),
                          ("currency", .str currency)])]
  let anc₁ := aset air_state.ancillaries "baggageSelections" (.arr normalized)
  let anc₂ := aset anc₁ "baggageItems" (.arr items)
  let anc₃ := aset anc₂ "baggagePricing" pricingBlock
  let air' := { air_state with ancillaries := anc₃, updated_at := now, revision := rev }
  ((normalized, items, warnings), { s₄ with airs := aset s₄.airs air_id air' })

/-! ## Meal selection (src/mock_server/handlers/meals.py) -/

/-- `_extract_meal_selections` from meals.py. -/
def _extract_meal_selections (payload : Json) : List Json :=
  match payload with
  | .obj _ =>
      let single :=
        match jget payload "mealSelection" with
        | .obj kvs => [Json.obj kvs]
        | _ => []
      let multiRaw :=
        match jget payload "mealSelections" with
        | .null => jget payload "mealsSelections"
        | v => v
      let multi :=
        match multiRaw with
        | .obj kvs => [Json.obj kvs]
        | other => (_safe_list other).filterMap (fun it =>
            let d := _safe_json it
            if truthy d then some d else none)
      (single ++ multi).map (fun d =>
        let pid := pyStrip (jstrField d "passengerId")
        let sid := pyStrip (jstrOr2 (jget d "segmentId") (jget d "routeId"))
        let mid := pyStrip (jstrOr2 (jget d "mealId") (jget d "id"))
        let sub := pyStrip (jstrOr2 (jget d "mealSubcode") (jget d "subcode"))
        Json.obj
          [("passengerId", .str pid), ("segmentId", .str sid),
           ("mealId", .str mid), ("mealSubcode", .str sub),
           ("sameMeal", match jget d "sameMeal" with
                        | .null => .null
                        | v => .bool (truthy v)),
           ("redemption", match jget d "redemption" with
                          | .null => .null
                          | v => .bool (truthy v))])
  | _ => []

def wMealInvalid (pid sid mid : String) : Json :=
  .obj [("code", .str "MEAL_SELECTION_INVALID"),
        ("message", .str "Meal selection entry is missing passengerId/segmentId/mealId; ignored."),
        ("details", .obj [("passengerId", .str pid), ("segmentId", .str sid),
                          ("mealId", .str mid)])]

/-- `{"passengerId": pid, "segmentId": sid, **s}`: the unpacked dict's own
keys override the two seeded ones. -/
def mealMergedEntry (pid sid : String) (s : Json) : Json :=
  let base : List (String × Json) := [("passengerId", .str pid), ("segmentId", .str sid)]
  let kvs : List (String × Json) := match s with | .obj l => l | _ => []
  .obj (kvs.foldl (fun acc p => aset acc p.1 p.2) base)

/-- Sort key `(str(x.get("segmentId") or ""), str(x.get("passengerId") or ""))`. -/
def mealSortLe (a b : Json) : Bool :=
  let ka := (jstrField a "segmentId", jstrField a "passengerId")
  let kb := (jstrField b "segmentId", jstrField b "passengerId")
  ka.1 < kb.1 || (ka.1 = kb.1 && ka.2 ≤ kb.2)

/-- One iteration of the stored-selection indexing loop of
`_merge_selections` (meals.py lines 133-139). -/
def mealLoadStep (idx : List ((String × String) × Json)) (s : Json) :
    List ((String × String) × Json) :=
  match s with
  | .obj _ =>
      let pid := selPid s
      let sid := selSid s
      if pid ≠ "" ∧ sid ≠ "" then aset idx (pid, sid) s else idx
  | _ => idx

/-- One iteration of the incoming-selection loop of `_merge_selections`
(meals.py lines 141-154). -/
def mealStep (st : List ((String × String) × Json) × List Json) (s : Json) :
    List ((String × String) × Json) × List Json :=
  let (idx, ws) := st
  let pid := selPid s
  let sid := selSid s
  let mid := pyStrip (jstrField s "mealId")
  if pid = "" ∨ sid = "" ∨ mid = "" then (idx, ws ++ [wMealInvalid pid sid mid])
  else (aset idx (pid, sid) (mealMergedEntry pid sid s), ws)

/-- `_merge_selections` from meals.py: replace-by-(passenger, segment), keep
other stored entries, then sort by (segment, passenger). -/
def _merge_selections (existing incoming : List Json) : List Json × List Json :=
  let idx₀ := existing.foldl mealLoadStep []
  let (idx₁, warnings) := incoming.foldl mealStep (idx₀, [])
  let merged := (avalues idx₁).mergeSort mealSortLe
  (merged, warnings)

/-! ## Response envelope (src/mock_server/responses.py, errors.py) -/

/-- `ok()` with no payload: the `BaseResponse` envelope. -/
def ok0 : Json :=
  .obj [("error", .null), ("warnings", .arr []), ("rules", .arr []), ("banners", .arr [])]

/-- `fail(error)`. -/
def fail (error : Json) : Json :=
  .obj [("error", error), ("warnings", .arr []), ("rules", .arr []), ("banners", .arr [])]

/-- `error_from_exception` from errors.py. -/
def error_from_exception (e : PyErr) : Json :=
  .obj [("code", .str "UNEXPECTED_ERROR"),
        ("message", .str "Unexpected error in mock server."),
        ("details", .obj [("type", .str (pyErrType e)), ("message", .str (pyErrMessage e))])]

/-- `merge_warning` from responses.py. -/
def merge_warning (resp w : Json) : Json :=
  match jget resp "warnings" with
  | .null => jset resp "warnings" (.arr [w])
  | .arr ws => jset resp "warnings" (.arr (ws ++ [w]))
  | other => jset resp "warnings" (.arr [other, w])

/-- `with_context_warnings`. -/
def with_context_warnings (resp : Json) (ws : List Json) : Json :=
  ws.foldl merge_warning resp

/-- `payload.update(d)`: merge the keys of `d` into the payload dict. -/
def jupdate (resp : Json) (d : List (String × Json)) : Json :=
  d.foldl (fun r p => jset r p.1 p.2) resp

/-! ## Flight selection handlers (src/mock_server/handlers/flights_selection.py,
with `_build_shopping_cart_payload` from flights_search.py) -/

/-- `_build_shopping_cart_payload` from flights_search.py. -/
def _build_shopping_cart_payload (order_id cart_id air_id currency : String) : Json :=
  .obj [("id", .str cart_id),
        ("status", .str "OPEN"),
        ("step", .str "FLIGHTS_SEARCH"),
        ("currentCurrency", .str currency),
        ("currencies", .arr [.str currency]),
        ("tripType", .null),
        ("products", .arr []),
        ("pricing", _make_pricing 0 currency),
        ("order", .obj [("id", .str order_id),
                        ("number", .str order_id),
                        ("status", .str "DRAFT"),
                        ("addedAirId", .str air_id),
                        ("airs", .arr [.obj [("id", .str air_id)]]),
                        ("passengers", .arr []),
                        ("payments", .arr []),
                        ("transfers", .arr []),
                        ("offline", .bool false),
                        ("snapshot", .bool false)]),
        ("customer", .obj []),
        ("searchLink", .null)]

/-- `_attach_seats_to_cart` from seats.py: fan the selections out to the
conventional response locations. -/
def _attach_seats_to_cart (shopping_cart : Json) (seat_selections : List Json) : Json :=
  let sels : Json := .arr seat_selections
  let sc := jset shopping_cart "seatSelections" sels
  match jget sc "order" with
  | .obj okvs =>
      let order := jset (.obj okvs) "seatSelections" sels
      let order :=
        match jget order "airs" with
        | .arr (a0 :: rest) =>
            (match a0 with
             | .obj _ =>
                 let a0 := jset a0 "seatSelections" sels
                 let anc := match jget a0 "ancillaries" with
                            | .obj akvs => Json.obj akvs
                            | _ => Json.obj []
                 let a0 := jset a0 "ancillaries" (jset anc "seatSelections" sels)
                 jset order "airs" (.arr (a0 :: rest))
             | _ => order)
        | _ => order
      jset sc "order" order
  | _ => sc

/-- `_extract_solution_price` from flights_selection.py. -/
def _extract_solution_price (option : Json) (solution_id : String) : Option (ℚ × String) :=
  match jget option "solutions" with
  | .obj sols =>
      match afind sols solution_id with
      | some (.obj sol) =>
          (match jget (.obj sol) "pricing" with
           | .obj pricing =>
               (match jget (.obj pricing) "total" with
                | .obj total =>
                    (match jget (.obj total) "price" with
                     | .obj price =>
                         (match pyFloat (jget (.obj price) "amount") with
                          | none => none
                          | some amount =>
                              some (amount,
                                if truthy (jget (.obj price) "currency") then
                                  pyStr (jget (.obj price) "currency")
                                else "USD"))
                     | _ => none)
                | _ => none)
           | _ => none)
      | _ => none
  | _ => none

/-- One iteration of the `_compute_total` loop from flights_selection.py. -/
def computeTotalStep (acc : ℚ × String) (os_ : Json) : ℚ × String :=
  let option_set := _safe_json os_
  let sel := _safe_json (jget option_set "selection")
  let option_id := jstrOr2 (jget sel "optionId") (jget option_set "optionId")
  let solution_id₀ := jstrOr2 (jget sel "solutionId") (jget option_set "solutionId")
  if option_id = "" then acc
  else
    match (_safe_list (jget option_set "options")).find?
        (fun opt => pyStr (jget (_safe_json opt) "id") == option_id) with
    | none => acc
    | some optRaw =>
        let opt := _safe_json optRaw
        let solution_id :=
          if solution_id₀ = "" then jstrField opt "cheapestSolutionId" else solution_id₀
        if solution_id = "" then acc
        else
          match _extract_solution_price opt solution_id with
          | none => acc
          | some (amount, cur) =>
              (acc.1 + amount, if cur ≠ "" then cur else acc.2)

/-- `_compute_total` from flights_selection.py. -/
def _compute_total (search_obj : Json) : ℚ × String :=
  (_safe_list (jget search_obj "optionSets")).foldl computeTotalStep (0, "USD")

/-- `_selected_routes` from flights_selection.py. -/
def _selected_routes (search_obj : Json) : List Json :=
  (_safe_list (jget search_obj "optionSets")).foldl (fun acc os_ =>
    let option_set := _safe_json os_
    let sel := _safe_json (jget option_set "selection")
    let option_id := jstrOr2 (jget sel "optionId") (jget option_set "optionId")
    if option_id = "" then acc
    else
      match (_safe_list (jget option_set "options")).find?
          (fun opt => pyStr (jget (_safe_json opt) "id") == option_id) with
      | none => acc
      | some optRaw =>
          acc ++ (_safe_list (jget (_safe_json optRaw) "routes")).map _safe_json) []

/-- flights_selection.py line 52 / flights_search.py line 387 also assign
`order_state.added_air_id`, another attribute the slotted `OrderState` does
not declare. -/
def readAddedAirId (_order : OrderState) : Except PyErr String :=
  .error (.attributeError "OrderState" "added_air_id")

def writeAddedAirId (_order : OrderState) (_v : String) : Except PyErr OrderState :=
  .error (.attributeError "OrderState" "added_air_id")

/-- `_resolve_air_id` from flights_selection.py; its first step reads
`order_state.added_air_id`, which raises. -/
def _resolve_air_id (ctx : RequestContext) (order_id cart_id now : String)
    (s : MockStateStore) : Except PyErr String × MockStateStore :=
  let (order_state, _, s₁) := ensure_order order_id ctx now s
  match readAddedAirId order_state with
  | .error e => (.error e, s₁)
  | .ok added =>
      if added ≠ "" then (.ok added, s₁)
      else
        let (cart_state, _, s₂) := ensure_shopping_cart order_id cart_id now s₁
        match cart_state.selected_airs with
        | a :: _ => (.ok a, s₂)
        | [] =>
            let air_id := "air-" ++ order_id
            let (_, _, s₃) := ensure_air order_id cart_id air_id now s₂
            let cart' := { cart_state with selected_airs := cart_state.selected_airs ++ [air_id] }
            let s₄ := { s₃ with shopping_carts := aset s₃.shopping_carts cart_id cart' }
            match writeAddedAirId order_state air_id with
            | .error e => (.error e, s₄)
            | .ok order' =>
                let s₅ := { s₄ with orders := aset s₄.orders order_id order' }
                let (_, s₆) := MockStateStore.touch s₅
                (.ok air_id, s₆)

/-- `selection_confirmation` from flights_selection.py (POST = confirm,
DELETE = unconfirm).  Its body first reads `cart_state.flights_search`
(line 342), which raises `AttributeError` before any flag or pricing is
touched; the continuation is embedded faithfully but is unreachable. -/
def selection_confirmation (method : String) (pp : PathParams) (ctx : RequestContext)
    (now : String) (s : MockStateStore) : Except PyErr Json × MockStateStore :=
  let order_id := pyStrip (match pp.orderId with | some v => v | none => "")
  let cart_id := pyStrip (match pp.shoppingCartId with | some v => v | none => "")
  let payload := with_context_warnings ok0 ctx.warnings
  let (cart_state, _, s₁) := ensure_shopping_cart order_id cart_id now s
  match readFlightsSearch cart_state with
  | .error e => (.error e, s₁)
  | .ok fs =>
      let search_obj := _safe_json fs
      let (total_amount, currency) :=
        if truthy search_obj then _compute_total search_obj else (0, "USD")
      let isPost := pyUpper method = "POST"
      match writeSelectionConfirmed cart_state isPost with
      | .error e => (.error e, s₁)
      | .ok cart₁ =>
          let step := if isPost then "ANCILLARIES" else "FLIGHTS_SELECTION"
          let (rev, s₂) := MockStateStore.touch s₁
          let cart₂ := { cart₁ with pricing := _make_pricing total_amount currency,
                                    updated_at := now, revision := rev }
          let s₃ := { s₂ with shopping_carts := aset s₂.shopping_carts cart_id cart₂ }
          match _resolve_air_id ctx order_id cart_id now s₃ with
          | (.error e, s₄) => (.error e, s₄)
          | (.ok air_id, s₄) =>
              let (air_state, _, s₅) := ensure_air order_id cart_id air_id now s₄
              let (rev₂, s₆) := MockStateStore.touch s₅
              let fsel := match afind air_state.ancillaries "flightsSelection" with
                          | some (.obj kvs) => Json.obj kvs
                          | some v => v
                          | none => Json.obj []
              let air' := { air_state with
                ancillaries := aset air_state.ancillaries "flightsSelection"
                  (jset fsel "confirmed" (.bool isPost)),
                updated_at := now, revision := rev₂ }
              let s₇ := { s₆ with airs := aset s₆.airs air_id air' }
              let sc := _build_shopping_cart_payload order_id cart_id air_id currency
              let sc := jset sc "step" (.str step)
              let sc := jset sc "pricing" (_make_pricing total_amount currency)
              let routes := if truthy search_obj then _selected_routes search_obj else []
              let sc :=
                if truthy (jget (_safe_json (jget sc "order")) "airs") && !routes.isEmpty then
                  match jget sc "order" with
                  | .obj okvs =>
                      (match jget (.obj okvs) "airs" with
                       | .arr (a0 :: rest) =>
                           jset sc "order" (jset (.obj okvs) "airs"
                             (.arr (jset a0 "routes" (.arr routes) :: rest)))
                       | _ => sc)
                  | _ => sc
                else sc
              let payload := jupdate payload [("shoppingCart", sc)]
              let payload := jset payload "mock"
                (.obj [("kind", .str "FlightsSelectionConfirmation"),
                       ("confirmed", .bool isPost),
                       ("ids", .obj [("orderId", .str order_id),
                                     ("shoppingCartId", .str cart_id),
                                     ("airId", .str air_id)]),
                       ("total", .obj [("amount", .num (pyRound2 total_amount)),
                                       ("currency", .str currency)])])
              (.ok payload, s₇)

/-! ## The seats endpoint and the exception guard (src/mock_server/server.py) -/

/-- One inbound request as the routing layer presents it to a handler: the
HTTP method, extracted path params, the `segmentId` query parameter and the
best-effort-parsed JSON body (`none` models a body whose JSON parse failed,
which `await request.json()` turns into `{}` inside the handler). -/
structure Request where
  method : String
  path_params : PathParams
  query_segmentId : Option String := none
  body : Option Json := none

/-- `put_or_delete_seats` from seats.py (the store is always injected by the
middleware in the assembled app, so the `STATE_STORE_MISSING` branch is not
reachable and not modelled).  Raises whatever `_reprice_cart` raises. -/
def put_or_delete_seats (req : Request) (ctx : RequestContext) (now : String)
    (s : MockStateStore) : Except PyErr Json × MockStateStore :=
  let order_id := pyStrip (match req.path_params.orderId with | some v => v | none => "")
  let cart_id := pyStrip (match req.path_params.shoppingCartId with | some v => v | none => "")
  let air_id := pyStrip (match req.path_params.airId with | some v => v | none => "")
  let payload := with_context_warnings ok0 ctx.warnings
  let (_, s₁) := ensure_from_request ctx req.path_params now s
  let ((seat_selections, warnings), s₂) :=
    if pyUpper req.method = "DELETE" then
      _delete_store_seats ctx order_id cart_id air_id req.query_segmentId now s₁
    else
      let body := (req.body).getD (.obj [])
      let seat_selections_req := _extract_seat_selections (_safe_json body)
      _update_store_seats ctx order_id cart_id air_id seat_selections_req now s₁
  match _reprice_cart ctx order_id cart_id air_id now s₂ with
  | (.error e, s₃) => (.error e, s₃)
  | (.ok (pricing, currency), s₃) =>
      let sc := _build_shopping_cart_payload order_id cart_id air_id currency
      let sc := jset sc "step" (.str "SEATS")
      let sc := jset sc "pricing" pricing
      let sc := _attach_seats_to_cart sc seat_selections
      let payload := jupdate payload
        [("retrieve", .obj [("shoppingCart", .bool true), ("ancillariesPricing", .bool true)]),
         ("shoppingCart", sc)]
      let payload := warnings.foldl merge_warning payload
      let payload := jset payload "mock"
        (.obj [("kind", .str "SeatSelection"),
               ("ids", .obj [("orderId", .str order_id), ("shoppingCartId", .str cart_id),
                             ("airId", .str air_id)]),
               ("requestMethod", .str req.method),
               ("seatsCount", .num seat_selections.length)])
      (.ok payload, s₃)

/-- An HTTP response as produced at the server boundary. -/
structure HttpResponse where
  status : Nat
  body : Json

/-- `_exception_guard` from server.py: any exception escaping a handler is
converted into a `fail(error_from_exception(exc))` envelope, still with HTTP
status 200. -/
def exception_guard (ctx : RequestContext)
    (run : MockStateStore → Except PyErr Json × MockStateStore)
    (s : MockStateStore) : HttpResponse × MockStateStore :=
  match run s with
  | (.ok payload, s') => ({ status := 200, body := payload }, s')
  | (.error e, s') =>
      ({ status := 200,
         body := with_context_warnings (fail (error_from_exception e)) ctx.warnings }, s')

/-! ## Association-list lemmas -/

section AListLemmas

variable {κ α : Type} [DecidableEq κ]

theorem afind_aset_self (m : List (κ × α)) (k : κ) (v : α) :
    afind (aset m k v) k = some v := by
  induction m with
  | nil => simp [aset, afind]
  | cons p t ih =>
      by_cases h : p.1 = k
      · simp [aset, h, afind]
      · simp [aset, h, afind, ih]

theorem afind_aset_ne (m : List (κ × α)) (k k' : κ) (v : α) (h : k' ≠ k) :
    afind (aset m k v) k' = afind m k' := by
  induction m with
  | nil =>
      simp only [aset, afind]
      rw [if_neg (fun hh => h hh.symm)]
  | cons p t ih =>
      by_cases hp : p.1 = k
      · simp only [aset, if_pos hp, afind]
        rw [if_neg (fun hh => h hh.symm), if_neg (fun hh : p.1 = k' => h (hp ▸ hh).symm)]
      · simp only [aset, if_neg hp, afind]
        by_cases hk : p.1 = k'
        · rw [if_pos hk, if_pos hk]
        · rw [if_neg hk, if_neg hk, ih]

theorem length_aset_of_none (m : List (κ × α)) (k : κ) (v : α) (h : afind m k = none) :
    (aset m k v).length = m.length + 1 := by
  induction m with
  | nil => simp [aset]
  | cons p t ih =>
      by_cases hp : p.1 = k
      · simp [afind, hp] at h
      · simp only [afind, hp, if_neg hp] at h
        simp [aset, hp, ih h]

theorem length_aset_of_some (m : List (κ × α)) (k : κ) (v w : α) (h : afind m k = some w) :
    (aset m k v).length = m.length := by
  induction m with
  | nil => simp [afind] at h
  | cons p t ih =>
      by_cases hp : p.1 = k
      · simp [aset, hp]
      · simp only [afind, hp, if_neg hp] at h
        simp [aset, hp, ih h]

theorem mem_adel {m : List (κ × α)} {k : κ} {p : κ × α} :
    p ∈ adel m k ↔ p ∈ m ∧ p.1 ≠ k := by
  simp [adel, List.mem_filter]

omit [DecidableEq κ] in
theorem nodupKeys_cons_iff {q : κ × α} {t : List (κ × α)} :
    NodupKeys (q :: t) ↔ q.1 ∉ t.map Prod.fst ∧ NodupKeys t := by
  unfold NodupKeys
  rw [List.map_cons, List.nodup_cons]

theorem mem_aset_of_nodup {m : List (κ × α)} (hm : NodupKeys m) {k : κ} {v : α} {p : κ × α}
    (h : p ∈ aset m k v) : p = (k, v) ∨ (p ∈ m ∧ p.1 ≠ k) := by
  induction m with
  | nil =>
      simp [aset] at h
      exact Or.inl h
  | cons q t ih =>
      rcases nodupKeys_cons_iff.mp hm with ⟨hq₁, hq₂⟩
      by_cases hq : q.1 = k
      · rw [aset, if_pos hq] at h
        rcases List.mem_cons.mp h with h | h
        · exact Or.inl h
        · refine Or.inr ⟨List.mem_cons_of_mem _ h, ?_⟩
          intro hc
          exact hq₁ (hq ▸ hc ▸ List.mem_map_of_mem Prod.fst h)
      · rw [aset, if_neg hq] at h
        rcases List.mem_cons.mp h with h | h
        · subst h
          exact Or.inr ⟨List.mem_cons_self _ _, hq⟩
        · rcases ih hq₂ h with h' | h'
          · exact Or.inl h'
          · exact Or.inr ⟨List.mem_cons_of_mem _ h'.1, h'.2⟩

theorem nodupKeys_aset {m : List (κ × α)} (hm : NodupKeys m) (k : κ) (v : α) :
    NodupKeys (aset m k v) := by
  induction m with
  | nil =>
      simp [aset, NodupKeys]
  | cons q t ih =>
      rcases nodupKeys_cons_iff.mp hm with ⟨hq₁, hq₂⟩
      by_cases hq : q.1 = k
      · rw [aset, if_pos hq]
        exact nodupKeys_cons_iff.mpr ⟨hq ▸ hq₁, hq₂⟩
      · rw [aset, if_neg hq]
        refine nodupKeys_cons_iff.mpr ⟨?_, ih hq₂⟩
        intro hc
        rcases List.mem_map.mp hc with ⟨p, hp, hfst⟩
        rcases mem_aset_of_nodup hq₂ hp with h' | h'
        · exact hq (by rw [h'] at hfst; exact hfst.symm ▸ rfl)
        · exact hq₁ (hfst ▸ List.mem_map_of_mem Prod.fst h'.1)

theorem nodupKeys_adel {m : List (κ × α)} (hm : NodupKeys m) (k : κ) :
    NodupKeys (adel m k) := by
  simp only [NodupKeys, adel] at hm ⊢
  exact (List.Sublist.map Prod.fst (List.filter_sublist m)).nodup hm

theorem afind_mem {m : List (κ × α)} {k : κ} {v : α} (h : afind m k = some v) :
    (k, v) ∈ m := by
  induction m with
  | nil => simp [afind] at h
  | cons p t ih =>
      by_cases hp : p.1 = k
      · rw [afind, if_pos hp] at h
        have hv : p.2 = v := Option.some.inj h
        have hpkv : p = (k, v) := by
          cases p
          simp only [Prod.mk.injEq]
          exact ⟨hp, hv⟩
        exact hpkv ▸ List.mem_cons_self _ _
      · rw [afind, if_neg hp] at h
        exact List.mem_cons_of_mem _ (ih h)

end AListLemmas

/-! ## Concrete fixtures -/

/-- A fully-headed request context (no context warnings). -/
def ctx0 : RequestContext :=
  { application := "IBE", flow := "revenue", locale := "en",
    conversation_id := "conv-1", warnings := [] }

/-- A second conversation's context. -/
def ctx2 : RequestContext :=
  { application := "IBE", flow := "revenue", locale := "en",
    conversation_id := "conv-2", warnings := [] }

/-- The fresh store created at app start. -/
def s0 : MockStateStore := {}

/-- A stored flights-search blob whose selected option/solution resolves to a
150.00 USD flight total (the spec's repricing scenario). -/
def flightSearchScenario : Json :=
  .obj [("optionSets", .arr [
    .obj [("selection", .obj [("optionId", .str "OPT1"), ("solutionId", .str "SOL1")]),
          ("options", .arr [
            .obj [("id", .str "OPT1"),
                  ("solutions", .obj [("SOL1",
                    .obj [("pricing", .obj [("total", .obj [("price",
                      .obj [("amount", .num 150), ("currency", .str "USD")])])])])])]])]])]

/-- One stored seat selection priced at 25.00 (row 10, column D: the premium
XL pair). -/
def seatSel25 : Json :=
  .obj [("passengerId", .str "P1"), ("segmentId", .str "S1"),
        ("rowNumber", .str "10"), ("seatNumber", .str "D")]

/-- Stored baggage items with amounts 15.00 and 30.00. -/
def bagItemsScenario : List Json :=
  [.obj [("amount", .num 15)], .obj [("amount", .num 30)]]

/-- A stored meal item with total price 18.00. -/
def mealItemsScenario : List Json :=
  [.obj [("pricing", .obj [("total", .obj [("price", .obj [("amount", .num 18)])])])]]

/-! ## C1 -/

/-- C1: the spec claims `_reprice_cart` returns a pricing object whose total
is flight + seat + bag + meal (238.00 for the 150/25/45/18 scenario).  The
pricing formula embedded from the source does evaluate to exactly that sum on
the scenario data (last four conjuncts), but `_reprice_cart` itself never
reaches it: its read of `cart_state.flights_search` raises `AttributeError`
on every call, because the slotted `ShoppingCartState` of state.py declares
no such field, so the claimed repricing behaviour is unobtainable. -/
theorem reprice_cart_raises_instead_of_totalling :
    (_reprice_cart ctx0 "O1" "C1" "A1" "t1" s0).1 =
      .error (.attributeError "ShoppingCartState" "flights_search") ∧
    _compute_flights_total flightSearchScenario = (150, "USD") ∧
    seatSelectionsSeatTotal [seatSel25] = 25 ∧
    baggageItemsTotal bagItemsScenario = 45 ∧
    mealItemsTotal mealItemsScenario = 18 ∧
    (150 : ℚ) + 25 + 45 + 18 = 238 := by
  refine ⟨rfl, ?_, ?_, ?_, ?_, by norm_num⟩
  · have h : _compute_flights_total flightSearchScenario = ((0 : ℚ) + 150, "USD") := rfl
    rw [h]
    norm_num
  · have h : seatSelectionsSeatTotal [seatSel25] = (0 : ℚ) + 25 := rfl
    rw [h]
    norm_num
  · have h : baggageItemsTotal bagItemsScenario = (0 : ℚ) + 15 + 30 := rfl
    rw [h]
    norm_num
  · have h : mealItemsTotal mealItemsScenario = (0 : ℚ) + 18 := rfl
    rw [h]
    norm_num

/-! ## C2 -/

/-- The request body for a single well-formed seat selection. -/
def seatRequestBody : Json :=
  .obj [("seatSelections", .arr [
    .obj [("passengerId", .str "P1"), ("segmentId", .str "S1"),
          ("rowNumber", .str "12"), ("seatNumber", .str "A")]])]

/-- A PUT seats request with all three path ids present. -/
def seatPutRequest : Request :=
  { method := "PUT",
    path_params := { orderId := some "O1", shoppingCartId := some "C1", airId := some "A1" },
    body := some seatRequestBody }

/-- C2: the spec claims every request yields a success status with `error`
null.  The status is indeed always a success code (the exception guard
returns 200 even on a crash), but an ordinary, well-formed PUT seats request
on a fresh store produces a response whose `error` field is the non-null
`UNEXPECTED_ERROR` envelope: the handler's `_reprice_cart` call raises
`AttributeError` reading the missing `flights_search` field and the guard
converts it into an error payload. -/
theorem seats_put_yields_unexpected_error_envelope :
    (exception_guard ctx0 (put_or_delete_seats seatPutRequest ctx0 "t1") s0).1.status = 200 ∧
    jget (exception_guard ctx0 (put_or_delete_seats seatPutRequest ctx0 "t1") s0).1.body "error" =
      error_from_exception (.attributeError "ShoppingCartState" "flights_search") ∧
    jstrField (jget (exception_guard ctx0 (put_or_delete_seats seatPutRequest ctx0 "t1") s0).1.body
      "error") "code" = "UNEXPECTED_ERROR" := by
  refine ⟨rfl, ?_, ?_⟩ <;> rfl

/-! ## C9 -/

/-- C9: the spec claims the confirmation handler flips `selection_confirmed`
and the step without altering the price.  The handler crashes instead: its
read of `cart_state.flights_search` (flights_selection.py line 342) raises
`AttributeError` — `ShoppingCartState` has neither that field nor a
`selection_confirmed` field to flip — so no flag or step is ever changed;
the auto-created cart keeps its default empty pricing. -/
theorem selection_confirmation_raises_attribute_error :
    (selection_confirmation "POST" { orderId := some "O1", shoppingCartId := some "C1" }
        ctx0 "t1" s0).1 =
      .error (.attributeError "ShoppingCartState" "flights_search") ∧
    ((selection_confirmation "POST" { orderId := some "O1", shoppingCartId := some "C1" }
        ctx0 "t1" s0).2.shopping_carts.map (fun p => (p.1, p.2.pricing))) =
      [("C1", Json.obj [])] := by
  exact ⟨rfl, rfl⟩

/-! ## C7 -/

/-- C7: `ensure_order` is idempotent.  If `oid` is not yet stored, the first
call creates the order (`created = true`), the second returns the same entity
with only its `updated_at` changed (`created = false`), the global revision
rises by exactly one across both calls, exactly one entity is added, and the
second call's only store change is writing back that timestamp touch. -/
theorem ensure_order_idempotent (oid : String) (ctx : RequestContext) (t₁ t₂ : String)
    (s : MockStateStore) (h : afind s.orders oid = none) :
    (ensure_order oid ctx t₁ s).2.1 = true ∧
    (ensure_order oid ctx t₂ (ensure_order oid ctx t₁ s).2.2).2.1 = false ∧
    (ensure_order oid ctx t₂ (ensure_order oid ctx t₁ s).2.2).1 =
      { (ensure_order oid ctx t₁ s).1 with updated_at := t₂ } ∧
    (ensure_order oid ctx t₂ (ensure_order oid ctx t₁ s).2.2).2.2.global_revision =
      s.global_revision + 1 ∧
    (ensure_order oid ctx t₂ (ensure_order oid ctx t₁ s).2.2).2.2.orders.length =
      s.orders.length + 1 ∧
    (ensure_order oid ctx t₂ (ensure_order oid ctx t₁ s).2.2).2.2 =
      { (ensure_order oid ctx t₁ s).2.2 with
        orders := aset (ensure_order oid ctx t₁ s).2.2.orders oid
          ((ensure_order oid ctx t₂ (ensure_order oid ctx t₁ s).2.2).1) } := by
  have e₁ : ensure_order oid ctx t₁ s =
      ({ order_id := oid, conversation_id := ctx.conversation_id,
         created_at := t₁, updated_at := t₁, revision := s.global_revision + 1 }, true,
       { s with global_revision := s.global_revision + 1,
                orders := aset s.orders oid
                  { order_id := oid, conversation_id := ctx.conversation_id,
                    created_at := t₁, updated_at := t₁, revision := s.global_revision + 1 } }) := by
    unfold ensure_order
    rw [h]
  have hfind : afind (ensure_order oid ctx t₁ s).2.2.orders oid =
      some (ensure_order oid ctx t₁ s).1 := by
    rw [e₁]
    exact afind_aset_self _ _ _
  have e₂ : ensure_order oid ctx t₂ (ensure_order oid ctx t₁ s).2.2 =
      ({ (ensure_order oid ctx t₁ s).1 with updated_at := t₂ }, false,
       { (ensure_order oid ctx t₁ s).2.2 with
         orders := aset (ensure_order oid ctx t₁ s).2.2.orders oid
           { (ensure_order oid ctx t₁ s).1 with updated_at := t₂ } }) := by
    rw [e₁]
    unfold ensure_order
    rw [afind_aset_self]
  refine ⟨by rw [e₁], by rw [e₂], by rw [e₂], ?_, ?_, ?_⟩
  · rw [e₂]
    show (ensure_order oid ctx t₁ s).2.2.global_revision = s.global_revision + 1
    rw [e₁]
  · rw [e₂]
    show (aset (ensure_order oid ctx t₁ s).2.2.orders oid _).length = s.orders.length + 1
    rw [length_aset_of_some _ _ _ _ hfind, e₁]
    exact length_aset_of_none _ _ _ h
  · rw [e₂]

/-- Closed instance of C7 on the fresh store. -/
theorem ensure_order_idempotent_witness :
    afind s0.orders "O1" = none ∧
    (ensure_order "O1" ctx0 "t2" (ensure_order "O1" ctx0 "t1" s0).2.2).2.2.global_revision =
      s0.global_revision + 1 ∧
    (ensure_order "O1" ctx0 "t2" (ensure_order "O1" ctx0 "t1" s0).2.2).2.1 = false :=
  ⟨rfl, (ensure_order_idempotent "O1" ctx0 "t1" "t2" s0 rfl).2.2.2.1,
   (ensure_order_idempotent "O1" ctx0 "t1" "t2" s0 rfl).2.1⟩

/-! ## C10 -/

/-- C10: store entities are keyed by id alone, with no per-conversation
isolation.  An `ensure_order` from a second conversation context returns the
entity created under the first context, `created = false`, and its
`conversation_id` still names the first conversation. -/
theorem ensure_order_ignores_conversation (oid : String) (ctx₁ ctx₂ : RequestContext)
    (t₁ t₂ : String) (s : MockStateStore) (h : afind s.orders oid = none) :
    (ensure_order oid ctx₁ t₁ s).2.1 = true ∧
    (ensure_order oid ctx₂ t₂ (ensure_order oid ctx₁ t₁ s).2.2).2.1 = false ∧
    (ensure_order oid ctx₂ t₂ (ensure_order oid ctx₁ t₁ s).2.2).1.conversation_id =
      ctx₁.conversation_id ∧
    (ensure_order oid ctx₂ t₂ (ensure_order oid ctx₁ t₁ s).2.2).1 =
      { (ensure_order oid ctx₁ t₁ s).1 with updated_at := t₂ } := by
  have e₁ : ensure_order oid ctx₁ t₁ s =
      ({ order_id := oid, conversation_id := ctx₁.conversation_id,
         created_at := t₁, updated_at := t₁, revision := s.global_revision + 1 }, true,
       { s with global_revision := s.global_revision + 1,
                orders := aset s.orders oid
                  { order_id := oid, conversation_id := ctx₁.conversation_id,
                    created_at := t₁, updated_at := t₁, revision := s.global_revision + 1 } }) := by
    unfold ensure_order
    rw [h]
  have hfind : afind (ensure_order oid ctx₁ t₁ s).2.2.orders oid =
      some (ensure_order oid ctx₁ t₁ s).1 := by
    rw [e₁]
    exact afind_aset_self _ _ _
  have e₂ : ensure_order oid ctx₂ t₂ (ensure_order oid ctx₁ t₁ s).2.2 =
      ({ (ensure_order oid ctx₁ t₁ s).1 with updated_at := t₂ }, false,
       { (ensure_order oid ctx₁ t₁ s).2.2 with
         orders := aset (ensure_order oid ctx₁ t₁ s).2.2.orders oid
           { (ensure_order oid ctx₁ t₁ s).1 with updated_at := t₂ } }) := by
    rw [e₁]
    unfold ensure_order
    rw [afind_aset_self]
  refine ⟨by rw [e₁], by rw [e₂], ?_, by rw [e₂]⟩
  rw [e₂]
  show (ensure_order oid ctx₁ t₁ s).1.conversation_id = ctx₁.conversation_id
  rw [e₁]

/-- Closed instance of C10: order created under `conv-1`, read back under
`conv-2`, still owned by `conv-1`. -/
theorem ensure_order_ignores_conversation_witness :
    afind s0.orders "O1" = none ∧
    (ensure_order "O1" ctx2 "t2" (ensure_order "O1" ctx0 "t1" s0).2.2).2.1 = false ∧
    (ensure_order "O1" ctx2 "t2" (ensure_order "O1" ctx0 "t1" s0).2.2).1.conversation_id =
      "conv-1" :=
  ⟨rfl, (ensure_order_ignores_conversation "O1" ctx0 ctx2 "t1" "t2" s0 rfl).2.1,
   (ensure_order_ignores_conversation "O1" ctx0 ctx2 "t1" "t2" s0 rfl).2.2.1⟩

/-! ## C5 -/

/-- A normalized baggage selection entry as `_extract_baggage_selections`
produces it. -/
def bagSel (pid rid : String) (ids : List String) : Json :=
  .obj [("passengerId", .str pid), ("routeId", .str rid),
        ("baggageIds", .arr (ids.map Json.str))]

/-- C5: submitting more than 2 bag ids for one (passenger, route) stores
exactly 2 bag items, emits a `BAG_LIMIT_APPLIED` warning, and prices the
first kept bag at 15.00 (discounted), strictly below the second bag's
regular 30.00. -/
theorem apply_baggage_two_bag_cap
    (ctx : RequestContext) (oid cid aid pid rid cur now : String)
    (a b c : String) (rest : List String) (s : MockStateStore)
    (hpid : pyStrip pid = pid) (hpid0 : pid ≠ "")
    (hrid : pyStrip rid = rid) (hrid0 : rid ≠ "")
    (ha : pyStrip a = a) (ha0 : a ≠ "") (hb : pyStrip b = b) (hb0 : b ≠ "") :
    (_apply_baggage ctx oid cid aid [bagSel pid rid (a :: b :: c :: rest)] cur now s).1.2.1 =
      [_make_bag_item pid rid a 0 cur now, _make_bag_item pid rid b 1 cur now] ∧
    (_apply_baggage ctx oid cid aid [bagSel pid rid (a :: b :: c :: rest)] cur now s).1.2.1.length
      = 2 ∧
    wBagLimit pid rid (a :: b :: c :: rest).length ∈
      (_apply_baggage ctx oid cid aid [bagSel pid rid (a :: b :: c :: rest)] cur now s).1.2.2 ∧
    pyFloat (jget (_make_bag_item pid rid a 0 cur now) "amount") = some 15 ∧
    pyFloat (jget (_make_bag_item pid rid b 1 cur now) "amount") = some 30 ∧
    (15 : ℚ) < 30 ∧
    (∃ air, afind (_apply_baggage ctx oid cid aid [bagSel pid rid (a :: b :: c :: rest)]
        cur now s).2.airs aid = some air ∧
      afind air.ancillaries "baggageItems" = some (.arr
        [_make_bag_item pid rid a 0 cur now, _make_bag_item pid rid b 1 cur now])) := by
  have hfold : [bagSel pid rid (a :: b :: c :: rest)].foldl (bagStep cur now) ([], [], []) =
      ([Json.obj [("passengerId", .str pid), ("routeId", .str rid),
                  ("baggageIds", .arr [Json.str a, Json.str b])]],
       [_make_bag_item pid rid a 0 cur now, _make_bag_item pid rid b 1 cur now],
       [wBagLimit pid rid (a :: b :: c :: rest).length]) := by
    simp only [List.foldl, bagStep, bagRid, bagSel, jstrField, jget, afind, truthy, pyStr]
    simp [hpid0, hrid0, hpid, hrid, ha, hb, ha0, hb0, List.filter, List.take]
    rfl
  refine ⟨?_, ?_, ?_, rfl, rfl, by norm_num, ?_⟩
  · show ([bagSel pid rid (a :: b :: c :: rest)].foldl (bagStep cur now) ([], [], [])).2.1 = _
    rw [hfold]
  · show ([bagSel pid rid (a :: b :: c :: rest)].foldl (bagStep cur now) ([], [], [])).2.1.length
      = 2
    rw [hfold]
    rfl
  · show wBagLimit pid rid (a :: b :: c :: rest).length ∈
      ([bagSel pid rid (a :: b :: c :: rest)].foldl (bagStep cur now) ([], [], [])).2.2
    rw [hfold]
    exact List.mem_singleton.mpr rfl
  · refine ⟨_, afind_aset_self _ _ _, ?_⟩
    show afind (aset (aset (aset _ "baggageSelections" _) "baggageItems" _) "baggagePricing" _)
      "baggageItems" = _
    rw [afind_aset_ne _ _ _ _ (by decide)]
    show afind (aset _ "baggageItems"
      (Json.arr ([bagSel pid rid (a :: b :: c :: rest)].foldl (bagStep cur now) ([], [], [])).2.1))
      "baggageItems" = _
    rw [hfold, afind_aset_self]

/-- Closed instance of C5: three bag ids for one (passenger, route) on a
fresh store. -/
theorem apply_baggage_two_bag_cap_witness :
    (_apply_baggage ctx0 "O1" "C1" "A1" [bagSel "P1" "R1" ["B1", "B2", "B3"]]
      "USD" "t1" s0).1.2.1.length = 2 ∧
    wBagLimit "P1" "R1" 3 ∈
      (_apply_baggage ctx0 "O1" "C1" "A1" [bagSel "P1" "R1" ["B1", "B2", "B3"]]
        "USD" "t1" s0).1.2.2 :=
  ⟨(apply_baggage_two_bag_cap ctx0 "O1" "C1" "A1" "P1" "R1" "USD" "t1" "B1" "B2" "B3" [] s0
      rfl (by decide) rfl (by decide) rfl (by decide) rfl (by decide)).2.1,
   (apply_baggage_two_bag_cap ctx0 "O1" "C1" "A1" "P1" "R1" "USD" "t1" "B1" "B2" "B3" [] s0
      rfl (by decide) rfl (by decide) rfl (by decide) rfl (by decide)).2.2.1⟩

/-! ## C4: the one-passenger-per-physical-seat invariant -/

/-- `str(e.get("segmentId") or "")`: the raw stored segment id. -/
def rawSid (e : Json) : String := jstrField e "segmentId"

def rawRn (e : Json) : String := jstrField e "rowNumber"

def rawSn (e : Json) : String := jstrField e "seatNumber"

/-- The physical seat an entry holds, read off its stored fields:
(segment, rowNumber ++ seatNumber). -/
def physKeyR (e : Json) : String × String := (rawSid e, rawRn e ++ rawSn e)

/-- A stored entry is normalized when each field equals its processed form —
exactly the shape `_update_store_seats` itself writes back. -/
def SeatNormed (e : Json) : Prop :=
  rawPid e = selPid e ∧ rawSid e = selSid e ∧ rawRn e = selRn e ∧ rawSn e = selSn e

/-- No two stored entries put different passengers on one physical seat. -/
def SeatsUnique (L : List Json) : Prop :=
  ∀ e ∈ L, ∀ f ∈ L, rawRn e ≠ "" → rawSn e ≠ "" → rawRn f ≠ "" → rawSn f ≠ "" →
    physKeyR e = physKeyR f → rawPid e = rawPid f

/-- Invariant tying `by_psg_seg` (`m`) to `by_seg_seat` (`t`): keys are
derived from the entry's own fields, and every seated entry's physical seat
resolves in `t` to a holder with the same passenger. -/
def SeatInv (m t : List ((String × String) × Json)) : Prop :=
  NodupKeys m ∧
  (∀ p ∈ m, p.1 = (rawPid p.2, rawSid p.2)) ∧
  (∀ p ∈ m, rawRn p.2 ≠ "" → rawSn p.2 ≠ "" →
    ∃ w, afind t (physKeyR p.2) = some w ∧ rawPid w = rawPid p.2)

theorem mem_aset_weak {κ α : Type} [DecidableEq κ] {m : List (κ × α)} {k : κ} {v : α}
    {p : κ × α} (h : p ∈ aset m k v) : p = (k, v) ∨ p ∈ m := by
  induction m with
  | nil =>
      simp [aset] at h
      exact Or.inl h
  | cons q l ih =>
      by_cases hq : q.1 = k
      · rw [aset, if_pos hq] at h
        rcases List.mem_cons.mp h with h | h
        · exact Or.inl h
        · exact Or.inr (List.mem_cons_of_mem _ h)
      · rw [aset, if_neg hq] at h
        rcases List.mem_cons.mp h with h | h
        · exact Or.inr (h ▸ List.mem_cons_self _ _)
        · rcases ih h with h | h
          · exact Or.inl h
          · exact Or.inr (List.mem_cons_of_mem _ h)

theorem eq_of_fst_eq {κ α : Type} {m : List (κ × α)} (hm : NodupKeys m) {p q : κ × α}
    (hp : p ∈ m) (hq : q ∈ m) (h : p.1 = q.1) : p = q := by
  induction m with
  | nil => cases hp
  | cons r l ih =>
      rcases nodupKeys_cons_iff.mp hm with ⟨h1, h2⟩
      rcases List.mem_cons.mp hp with hp' | hp'
      · rcases List.mem_cons.mp hq with hq' | hq'
        · rw [hp', hq']
        · subst hp'
          exact absurd (h ▸ List.mem_map_of_mem Prod.fst hq') h1
      · rcases List.mem_cons.mp hq with hq' | hq'
        · subst hq'
          exact absurd (h ▸ List.mem_map_of_mem Prod.fst hp') h1
        · exact ih h2 hp' hq' 

theorem rawPid_mkSelObj {s : Json} (h : selPid s ≠ "") : rawPid (mkSelObj s) = selPid s := by
  simp [mkSelObj, rawPid, jstrField, jget, afind, truthy, pyStr, h]

theorem rawSid_mkSelObj {s : Json} (h : selSid s ≠ "") : rawSid (mkSelObj s) = selSid s := by
  simp [mkSelObj, rawSid, jstrField, jget, afind, truthy, pyStr, h]

theorem rawRn_mkSelObj {s : Json} (h : selRn s ≠ "") : rawRn (mkSelObj s) = selRn s := by
  simp [mkSelObj, rawRn, jstrField, jget, afind, truthy, pyStr, h]

theorem rawSn_mkSelObj {s : Json} (h : selSn s ≠ "") : rawSn (mkSelObj s) = selSn s := by
  simp [mkSelObj, rawSn, jstrField, jget, afind, truthy, pyStr, h]

/-- Inserting a valid incoming selection into both maps preserves the
invariant, provided any remaining seated map entry already on the claimed
seat belongs to the same passenger (the eviction step established that). -/
theorem seatInsert_inv {m₁ t : List ((String × String) × Json)} {s : Json}
    (hA₁ : NodupKeys m₁)
    (hB₁ : ∀ p ∈ m₁, p.1 = (rawPid p.2, rawSid p.2))
    (hC₁ : ∀ p ∈ m₁, rawRn p.2 ≠ "" → rawSn p.2 ≠ "" →
      ∃ w, afind t (physKeyR p.2) = some w ∧ rawPid w = rawPid p.2)
    (hp0 : selPid s ≠ "") (hs0 : selSid s ≠ "") (hr0 : selRn s ≠ "") (hn0 : selSn s ≠ "")
    (hsafe : ∀ p ∈ m₁, rawRn p.2 ≠ "" → rawSn p.2 ≠ "" →
      physKeyR p.2 = (selSid s, selRn s ++ selSn s) → rawPid p.2 = selPid s) :
    SeatInv (aset m₁ (selPid s, selSid s) (mkSelObj s))
            (aset t (selSid s, selRn s ++ selSn s) (mkSelObj s)) := by
  have hobjP := rawPid_mkSelObj hp0
  have hobjS := rawSid_mkSelObj hs0
  have hobjR := rawRn_mkSelObj hr0
  have hobjN := rawSn_mkSelObj hn0
  have hphys : physKeyR (mkSelObj s) = (selSid s, selRn s ++ selSn s) := by
    unfold physKeyR
    rw [hobjS, hobjR, hobjN]
  refine ⟨nodupKeys_aset hA₁ _ _, ?_, ?_⟩
  · intro p hp
    rcases mem_aset_of_nodup hA₁ hp with h | ⟨h, _⟩
    · rw [h]
      show (selPid s, selSid s) = _
      rw [hobjP, hobjS]
    · exact hB₁ p h
  · intro p hp hrn hsn
    rcases mem_aset_of_nodup hA₁ hp with h | ⟨h, _⟩
    · subst h
      refine ⟨mkSelObj s, ?_, rfl⟩
      show afind _ (physKeyR (mkSelObj s)) = _
      rw [hphys, afind_aset_self]
    · by_cases hk : physKeyR p.2 = (selSid s, selRn s ++ selSn s)
      · refine ⟨mkSelObj s, ?_, ?_⟩
        · rw [hk, afind_aset_self]
        · rw [hobjP]
          exact (hsafe p h hrn hsn hk).symm
      · obtain ⟨w, hw1, hw2⟩ := hC₁ p h hrn hsn
        refine ⟨w, ?_, hw2⟩
        rw [afind_aset_ne _ _ _ _ hk]
        exact hw1

/-- One incoming-selection step preserves the invariant. -/
theorem seatStep_inv (m t : List ((String × String) × Json)) (ws : List Json) (s : Json)
    (hinv : SeatInv m t) :
    SeatInv (seatStep (m, t, ws) s).1 (seatStep (m, t, ws) s).2.1 := by
  obtain ⟨hA, hB, hC⟩ := hinv
  by_cases hval : selPid s = "" ∨ selSid s = "" ∨ selRn s = "" ∨ selSn s = ""
  · simp only [seatStep, if_pos hval]
    exact ⟨hA, hB, hC⟩
  · have hp0 : selPid s ≠ "" := fun h => hval (Or.inl h)
    have hs0 : selSid s ≠ "" := fun h => hval (Or.inr (Or.inl h))
    have hr0 : selRn s ≠ "" := fun h => hval (Or.inr (Or.inr (Or.inl h)))
    have hn0 : selSn s ≠ "" := fun h => hval (Or.inr (Or.inr (Or.inr h)))
    rcases hother : afind t (selSid s, selRn s ++ selSn s) with _ | other
    · simp only [seatStep, if_neg hval, hother]
      refine seatInsert_inv hA hB hC hp0 hs0 hr0 hn0 ?_
      intro p hp hrn hsn hk
      obtain ⟨w, hw1, _⟩ := hC p hp hrn hsn
      rw [hk, hother] at hw1
      cases hw1
    · by_cases hconf : rawPid other ≠ selPid s
      · simp only [seatStep, if_neg hval, hother, if_pos hconf]
        refine seatInsert_inv (nodupKeys_adel hA _) ?_ ?_ hp0 hs0 hr0 hn0 ?_
        · intro p hp
          exact hB p (mem_adel.mp hp).1
        · intro p hp hrn hsn
          exact hC p (mem_adel.mp hp).1 hrn hsn
        · intro p hp hrn hsn hk
          obtain ⟨hpm, hpk⟩ := mem_adel.mp hp
          obtain ⟨w, hw1, hw2⟩ := hC p hpm hrn hsn
          rw [hk, hother] at hw1
          have hwo : other = w := Option.some.inj hw1
          have hsid : rawSid p.2 = selSid s := congrArg Prod.fst hk
          have : p.1 = (rawPid other, selSid s) := by
            rw [hB p hpm, hsid, hwo, hw2]
          exact absurd this hpk
      · simp only [seatStep, if_neg hval, hother, if_neg hconf]
        refine seatInsert_inv hA hB hC hp0 hs0 hr0 hn0 ?_
        intro p hp hrn hsn hk
        obtain ⟨w, hw1, hw2⟩ := hC p hp hrn hsn
        rw [hk, hother] at hw1
        have hwo : other = w := Option.some.inj hw1
        rw [← hw2, ← hwo]
        exact not_ne_iff.mp hconf

/-- The incoming-selection fold preserves the invariant. -/
theorem seatFold_inv (l : List Json) (m t : List ((String × String) × Json)) (ws : List Json)
    (hinv : SeatInv m t) :
    SeatInv (l.foldl seatStep (m, t, ws)).1 (l.foldl seatStep (m, t, ws)).2.1 := by
  induction l generalizing m t ws with
  | nil => exact hinv
  | cons s l ih =>
      rw [List.foldl_cons]
      exact ih _ _ _ (seatStep_inv m t ws s hinv)

/-- One stored-selection indexing step preserves the invariant, assuming the
whole stored list is normalized and physically consistent. -/
theorem loadSeatStep_inv {L : List Json} (hu : SeatsUnique L)
    {m t : List ((String × String) × Json)} {s : Json} (hs : s ∈ L) (hnorm : SeatNormed s)
    (hinv : SeatInv m t) (hmem : ∀ p ∈ m, p.2 ∈ L) :
    SeatInv (loadSeatStep (m, t) s).1 (loadSeatStep (m, t) s).2 ∧
    (∀ p ∈ (loadSeatStep (m, t) s).1, p.2 ∈ L) := by
  obtain ⟨hA, hB, hC⟩ := hinv
  obtain ⟨hnp, hns, hnr, hnn⟩ := hnorm
  by_cases hval : selPid s = "" ∨ selSid s = ""
  · simp only [loadSeatStep, if_pos hval]
    exact ⟨⟨hA, hB, hC⟩, hmem⟩
  · have hp0 : selPid s ≠ "" := fun h => hval (Or.inl h)
    have hs0 : selSid s ≠ "" := fun h => hval (Or.inr h)
    simp only [loadSeatStep, if_neg hval]
    have hmem' : ∀ p ∈ aset m (selPid s, selSid s) s, p.2 ∈ L := by
      intro p hp
      rcases mem_aset_weak hp with h | h
      · rw [h]
        exact hs
      · exact hmem p h
    refine ⟨⟨nodupKeys_aset hA _ _, ?_, ?_⟩, hmem'⟩
    · intro p hp
      rcases mem_aset_of_nodup hA hp with h | ⟨h, _⟩
      · rw [h]
        show (selPid s, selSid s) = _
        rw [hnp, hns]
      · exact hB p h
    · intro p hp hrn hsn
      by_cases hseat : selRn s ≠ "" ∧ selSn s ≠ ""
      · rw [if_pos hseat]
        rcases mem_aset_of_nodup hA hp with h | ⟨h, _⟩
        · subst h
          refine ⟨s, ?_, rfl⟩
          show afind _ (physKeyR s) = _
          have : physKeyR s = (selSid s, selRn s ++ selSn s) := by
            unfold physKeyR
            rw [hns, hnr, hnn]
          rw [this, afind_aset_self]
        · by_cases hk : physKeyR p.2 = (selSid s, selRn s ++ selSn s)
          · refine ⟨s, ?_, ?_⟩
            · rw [hk, afind_aset_self]
            · exact (hu p.2 (hmem p h) s hs hrn hsn
                (by rw [hnr]; exact hseat.1) (by rw [hnn]; exact hseat.2)
                (by rw [hk]; unfold physKeyR; rw [hns, hnr, hnn])).symm
          · obtain ⟨w, hw1, hw2⟩ := hC p h hrn hsn
            refine ⟨w, ?_, hw2⟩
            rw [afind_aset_ne _ _ _ _ hk]
            exact hw1
      · rw [if_neg hseat]
        rcases mem_aset_of_nodup hA hp with h | ⟨h, _⟩
        · subst h
          exact absurd ⟨hnr ▸ hrn, hnn ▸ hsn⟩ hseat
        · exact hC p h hrn hsn

/-- The stored-selection indexing fold establishes the invariant. -/
theorem loadFold_inv {L : List Json} (hu : SeatsUnique L) (l : List Json)
    (hl : ∀ e ∈ l, e ∈ L) (hn : ∀ e ∈ l, SeatNormed e)
    (m t : List ((String × String) × Json)) (hinv : SeatInv m t) (hmem : ∀ p ∈ m, p.2 ∈ L) :
    SeatInv (l.foldl loadSeatStep (m, t)).1 (l.foldl loadSeatStep (m, t)).2 := by
  induction l generalizing m t with
  | nil => exact hinv
  | cons s l ih =>
      rw [List.foldl_cons]
      obtain ⟨hinv', hmem'⟩ := loadSeatStep_inv hu (hl s (List.mem_cons_self _ _))
        (hn s (List.mem_cons_self _ _)) hinv hmem
      exact ih (fun e he => hl e (List.mem_cons_of_mem _ he))
        (fun e he => hn e (List.mem_cons_of_mem _ he)) _ _ hinv' hmem'

/-- The merged output of the seat-selection update puts each physical seat in
the hands of at most one stored entry (hence one passenger): any two merged
entries with full seat coordinates and the same (segment, row+seat) are the
same entry. -/
theorem mergeSeatSelections_unique (existing_norm sels : List Json)
    (hn : ∀ e ∈ existing_norm, SeatNormed e) (hu : SeatsUnique existing_norm) :
    ∀ e ∈ (mergeSeatSelections existing_norm sels).1,
    ∀ f ∈ (mergeSeatSelections existing_norm sels).1,
      rawRn e ≠ "" → rawSn e ≠ "" → rawRn f ≠ "" → rawSn f ≠ "" →
      physKeyR e = physKeyR f → e = f := by
  intro e he f hf hre hse hrf hsf hk
  have hinv₀ : SeatInv (loadSeatMaps existing_norm).1 (loadSeatMaps existing_norm).2 := by
    unfold loadSeatMaps
    exact loadFold_inv hu existing_norm (fun _ h => h) hn [] []
      ⟨by simp [NodupKeys], by simp, by simp⟩ (by simp)
  have hinv : SeatInv (sels.foldl seatStep
        ((loadSeatMaps existing_norm).1, (loadSeatMaps existing_norm).2, [])).1
      (sels.foldl seatStep
        ((loadSeatMaps existing_norm).1, (loadSeatMaps existing_norm).2, [])).2.1 :=
    seatFold_inv sels _ _ [] hinv₀
  obtain ⟨hA, hB, hC⟩ := hinv
  obtain ⟨p, hp, hpe⟩ := List.mem_map.mp he
  obtain ⟨q, hq, hqf⟩ := List.mem_map.mp hf
  subst hpe hqf
  obtain ⟨w₁, hw₁, hpw₁⟩ := hC p hp hre hse
  obtain ⟨w₂, hw₂, hpw₂⟩ := hC q hq hrf hsf
  rw [hk] at hw₁
  rw [hw₂] at hw₁
  have hww : w₂ = w₁ := Option.some.inj hw₁
  have hpid : rawPid p.2 = rawPid q.2 := by
    rw [← hpw₁, ← hpw₂, hww]
  have hsid : rawSid p.2 = rawSid q.2 := congrArg Prod.fst hk
  have : p = q := eq_of_fst_eq hA hp hq (by rw [hB p hp, hB q hq, hpid, hsid])
  rw [this]

/-- The seat-selection list stored on air `aid` (empty when absent). -/
def storedSeatSelections (s : MockStateStore) (aid : String) : List Json :=
  match afind s.airs aid with
  | some air =>
      match afind air.ancillaries "seatSelections" with
      | some (.arr l) => l
      | _ => []
  | none => []

theorem ensure_order_airs (oid : String) (ctx : RequestContext) (t : String)
    (s : MockStateStore) : (ensure_order oid ctx t s).2.2.airs = s.airs := by
  unfold ensure_order
  cases afind s.orders oid <;> rfl

theorem ensure_cart_airs (oid cid t : String) (s : MockStateStore) :
    (ensure_shopping_cart oid cid t s).2.2.airs = s.airs := by
  unfold ensure_shopping_cart
  cases afind s.shopping_carts cid <;> rfl

/-- `_update_store_seats` merges the incoming selections into exactly the
stored list via `mergeSeatSelections`. -/
theorem update_seats_is_merge (ctx : RequestContext) (oid cid aid : String)
    (sels : List Json) (now : String) (s : MockStateStore) :
    (_update_store_seats ctx oid cid aid sels now s).1 =
      mergeSeatSelections ((storedSeatSelections s aid).map _safe_json) sels := by
  unfold _update_store_seats storedSeatSelections ensure_order ensure_shopping_cart ensure_air
  rcases h1 : afind s.orders oid with _ | o <;>
    rcases h2 : afind s.shopping_carts cid with _ | c <;>
    rcases h3 : afind s.airs aid with _ | a <;>
    simp [h1, h2, h3, afind]

/-- A minimal stored/incoming seat-selection entry. -/
def seatEntry (pid sid rn sn : String) : Json :=
  .obj [("passengerId", .str pid), ("segmentId", .str sid),
        ("rowNumber", .str rn), ("seatNumber", .str sn)]

/-- C4.  General part: after any seat-selection update whose prior stored
list is normalized (the shape the handler itself writes) and respects the
one-passenger-per-seat invariant, the resulting stored list again puts each
physical seat (segment, rowNumber+seatNumber) in at most one entry's hands —
any two fully-seated merged entries on the same physical seat are the same
entry — and that list is exactly what is stored on the air.  Concrete part:
with P1 holding (S1, 12A), P2 selecting (S1, 12A) leaves P2 as the only
holder and emits a `SEAT_REASSIGNED` warning naming both passengers. -/
theorem seat_update_one_passenger_per_seat :
    (∀ (ctx : RequestContext) (oid cid aid : String) (sels : List Json) (now : String)
       (s : MockStateStore),
      (∀ e ∈ (storedSeatSelections s aid).map _safe_json, SeatNormed e) →
      SeatsUnique ((storedSeatSelections s aid).map _safe_json) →
      (∀ e ∈ (_update_store_seats ctx oid cid aid sels now s).1.1,
       ∀ f ∈ (_update_store_seats ctx oid cid aid sels now s).1.1,
        rawRn e ≠ "" → rawSn e ≠ "" → rawRn f ≠ "" → rawSn f ≠ "" →
        physKeyR e = physKeyR f → e = f) ∧
      (∃ air, afind (_update_store_seats ctx oid cid aid sels now s).2.airs aid = some air ∧
        afind air.ancillaries "seatSelections" =
          some (.arr (_update_store_seats ctx oid cid aid sels now s).1.1))) ∧
    ((mergeSeatSelections [seatEntry "P1" "S1" "12" "A"] [seatEntry "P2" "S1" "12" "A"]).1.map
      (fun e => (rawPid e, rawSid e, rawRn e, rawSn e)) = [("P2", "S1", "12", "A")]) ∧
    (mergeSeatSelections [seatEntry "P1" "S1" "12" "A"] [seatEntry "P2" "S1" "12" "A"]).2 =
      [wSeatReassigned "S1" "12A" "P1" "P2"] := by
  refine ⟨?_, rfl, rfl⟩
  intro ctx oid cid aid sels now s hn hu
  constructor
  · intro e he f hf
    rw [update_seats_is_merge] at he hf
    exact mergeSeatSelections_unique _ sels hn hu e he f hf
  · exact ⟨_, afind_aset_self _ _ _, afind_aset_self _ _ _⟩

/-- Closed instance of C4's general part on a fresh store. -/
theorem seat_update_one_passenger_per_seat_witness :
    ∃ air, afind (_update_store_seats ctx0 "O1" "C1" "A1" [seatEntry "P2" "S1" "12" "A"]
        "t1" s0).2.airs "A1" = some air ∧
      afind air.ancillaries "seatSelections" =
        some (.arr (_update_store_seats ctx0 "O1" "C1" "A1" [seatEntry "P2" "S1" "12" "A"]
          "t1" s0).1.1) :=
  (seat_update_one_passenger_per_seat.1 ctx0 "O1" "C1" "A1" [seatEntry "P2" "S1" "12" "A"]
    "t1" s0 (fun e he => by simp [storedSeatSelections, s0, afind] at he)
    (fun e he => by simp [storedSeatSelections, s0, afind] at he)).2

/-! ## C6: validation machinery -/

theorem pyStrip_ne_empty {x : String} (h : pyStrip x ≠ "") : x ≠ "" := by
  intro hx
  subst hx
  exact h rfl

/-- One incoming seat step keeps every map value's raw passenger/segment ids
non-empty. -/
theorem seatStep_all_valid {m t : List ((String × String) × Json)} {ws : List Json}
    (hm : ∀ p ∈ m, rawPid p.2 ≠ "" ∧ rawSid p.2 ≠ "") (s : Json) :
    ∀ p ∈ (seatStep (m, t, ws) s).1, rawPid p.2 ≠ "" ∧ rawSid p.2 ≠ "" := by
  by_cases hval : selPid s = "" ∨ selSid s = "" ∨ selRn s = "" ∨ selSn s = ""
  · simp only [seatStep, if_pos hval]
    exact hm
  · have hp0 : selPid s ≠ "" := fun h => hval (Or.inl h)
    have hs0 : selSid s ≠ "" := fun h => hval (Or.inr (Or.inl h))
    have hobj : rawPid (mkSelObj s) ≠ "" ∧ rawSid (mkSelObj s) ≠ "" := by
      rw [rawPid_mkSelObj hp0, rawSid_mkSelObj hs0]
      exact ⟨hp0, hs0⟩
    rcases hother : afind t (selSid s, selRn s ++ selSn s) with _ | other
    · simp only [seatStep, if_neg hval, hother]
      intro p hp
      rcases mem_aset_weak hp with h | h
      · subst h
        exact hobj
      · exact hm p h
    · by_cases hconf : rawPid other ≠ selPid s
      · simp only [seatStep, if_neg hval, hother, if_pos hconf]
        intro p hp
        rcases mem_aset_weak hp with h | h
        · subst h
          exact hobj
        · exact hm p (mem_adel.mp h).1
      · simp only [seatStep, if_neg hval, hother, if_neg hconf]
        intro p hp
        rcases mem_aset_weak hp with h | h
        · subst h
          exact hobj
        · exact hm p h

theorem seatFold_all_valid (l : List Json) (m t : List ((String × String) × Json))
    (ws : List Json) (hm : ∀ p ∈ m, rawPid p.2 ≠ "" ∧ rawSid p.2 ≠ "") :
    ∀ p ∈ (l.foldl seatStep (m, t, ws)).1, rawPid p.2 ≠ "" ∧ rawSid p.2 ≠ "" := by
  induction l generalizing m t ws with
  | nil => exact hm
  | cons s l ih =>
      rw [List.foldl_cons]
      exact ih _ _ _ (seatStep_all_valid hm s)

theorem loadSeatStep_all_valid {m t : List ((String × String) × Json)}
    (hm : ∀ p ∈ m, rawPid p.2 ≠ "" ∧ rawSid p.2 ≠ "") (s : Json) :
    ∀ p ∈ (loadSeatStep (m, t) s).1, rawPid p.2 ≠ "" ∧ rawSid p.2 ≠ "" := by
  by_cases hval : selPid s = "" ∨ selSid s = ""
  · simp only [loadSeatStep, if_pos hval]
    exact hm
  · have hp0 : selPid s ≠ "" := fun h => hval (Or.inl h)
    have hs0 : selSid s ≠ "" := fun h => hval (Or.inr h)
    simp only [loadSeatStep, if_neg hval]
    intro p hp
    rcases mem_aset_weak hp with h | h
    · subst h
      exact ⟨pyStrip_ne_empty hp0, pyStrip_ne_empty hs0⟩
    · exact hm p h

theorem loadFold_all_valid (l : List Json) (m t : List ((String × String) × Json))
    (hm : ∀ p ∈ m, rawPid p.2 ≠ "" ∧ rawSid p.2 ≠ "") :
    ∀ p ∈ (l.foldl loadSeatStep (m, t)).1, rawPid p.2 ≠ "" ∧ rawSid p.2 ≠ "" := by
  induction l generalizing m t with
  | nil => exact hm
  | cons s l ih =>
      rw [List.foldl_cons]
      exact ih _ _ (loadSeatStep_all_valid hm s)

/-- No merged seat entry has an empty passenger or segment id. -/
theorem mergeSeat_all_valid (L sels : List Json) :
    ∀ e ∈ (mergeSeatSelections L sels).1, rawPid e ≠ "" ∧ rawSid e ≠ "" := by
  intro e he
  obtain ⟨p, hp, hpe⟩ := List.mem_map.mp he
  subst hpe
  refine seatFold_all_valid sels _ _ [] ?_ p hp
  exact loadFold_all_valid L [] [] (by simp)

theorem seatStep_warn_mono {m t : List ((String × String) × Json)} {ws : List Json}
    {w : Json} (s : Json) (h : w ∈ ws) : w ∈ (seatStep (m, t, ws) s).2.2 := by
  by_cases hval : selPid s = "" ∨ selSid s = "" ∨ selRn s = "" ∨ selSn s = ""
  · simp only [seatStep, if_pos hval]
    exact List.mem_append_left _ h
  · rcases hother : afind t (selSid s, selRn s ++ selSn s) with _ | other
    · simp only [seatStep, if_neg hval, hother]
      exact h
    · by_cases hconf : rawPid other ≠ selPid s
      · simp only [seatStep, if_neg hval, hother, if_pos hconf]
        exact List.mem_append_left _ h
      · simp only [seatStep, if_neg hval, hother, if_neg hconf]
        exact h

theorem seatFold_warn_mono (l : List Json) {m t : List ((String × String) × Json)}
    {ws : List Json} {w : Json} (h : w ∈ ws) : w ∈ (l.foldl seatStep (m, t, ws)).2.2 := by
  induction l generalizing m t ws with
  | nil => exact h
  | cons s l ih =>
      rw [List.foldl_cons]
      exact ih (seatStep_warn_mono s h)

/-- A seat selection without passenger or segment id is reported with a
`SEAT_SELECTION_INVALID` warning. -/
theorem seatFold_invalid_warned (l : List Json) (m t : List ((String × String) × Json))
    (ws : List Json) :
    ∀ sel ∈ l, selPid sel = "" ∨ selSid sel = "" →
      wSeatInvalid (selPid sel) (selSid sel) (selRn sel) (selSn sel) ∈
        (l.foldl seatStep (m, t, ws)).2.2 := by
  induction l generalizing m t ws with
  | nil =>
      intro sel h
      cases h
  | cons s l ih =>
      intro sel hsel hinv
      rw [List.foldl_cons]
      rcases List.mem_cons.mp hsel with h | h
      · subst h
        have hval : selPid sel = "" ∨ selSid sel = "" ∨ selRn sel = "" ∨ selSn sel = "" := by
          rcases hinv with h | h
          · exact Or.inl h
          · exact Or.inr (Or.inl h)
        refine seatFold_warn_mono l ?_
        show wSeatInvalid (selPid sel) (selSid sel) (selRn sel) (selSn sel) ∈
          (seatStep (m, t, ws) sel).2.2
        simp only [seatStep, if_pos hval]
        exact List.mem_append_right _ (List.mem_singleton.mpr rfl)
      · exact ih _ _ _ sel h hinv

/-- Last binding of a key in a (possibly duplicated) key-value list; this is
what Python dict construction keeps. -/
def lastFind : List (String × Json) → String → Option Json
  | [], _ => none
  | p :: t, k =>
      match lastFind t k with
      | some v => some v
      | none => if p.1 = k then some p.2 else none

theorem afind_foldl_aset (kvs base : List (String × Json)) (k : String) :
    afind (kvs.foldl (fun acc p => aset acc p.1 p.2) base) k =
      match lastFind kvs k with
      | some v => some v
      | none => afind base k := by
  induction kvs generalizing base with
  | nil => rfl
  | cons p t ih =>
      rw [List.foldl_cons, ih]
      cases hl : lastFind t k with
      | some v => simp only [lastFind, hl]
      | none =>
          by_cases hp : p.1 = k
          · simp only [lastFind, hl, if_pos hp]
            rw [← hp, afind_aset_self]
          · simp only [lastFind, hl, if_neg hp]
            rw [afind_aset_ne _ _ _ _ (fun hh => hp hh.symm)]

theorem lastFind_eq_afind {kvs : List (String × Json)} (h : NodupKeys kvs) (k : String) :
    lastFind kvs k = afind kvs k := by
  induction kvs with
  | nil => rfl
  | cons p t ih =>
      rcases nodupKeys_cons_iff.mp h with ⟨h1, h2⟩
      by_cases hp : p.1 = k
      · have ht : lastFind t k = none := by
          rw [ih h2]
          cases hf : afind t k with
          | none => rfl
          | some v =>
              exact absurd (hp ▸ List.mem_map_of_mem Prod.fst (afind_mem hf)) h1
        simp only [lastFind, ht, if_pos hp, afind]
      · simp only [lastFind, afind, ih h2]
        rw [if_neg hp, if_neg hp]
        cases afind t k <;> rfl

/-- Field lookup on `{"passengerId": pid, "segmentId": sid, **s}`: the
unpacked dict's own binding wins, the seeded pair is the fallback. -/
theorem jget_mealMergedEntry (pid sid : String) (kvs : List (String × Json))
    (hnd : NodupKeys kvs) (k : String) :
    jget (mealMergedEntry pid sid (.obj kvs)) k =
      match afind kvs k with
      | some v => v
      | none => jget (.obj [("passengerId", Json.str pid), ("segmentId", Json.str sid)]) k := by
  show (afind ((kvs.foldl (fun acc p => aset acc p.1 p.2))
      [("passengerId", Json.str pid), ("segmentId", Json.str sid)]) k).getD .null = _
  rw [afind_foldl_aset, lastFind_eq_afind hnd]
  cases afind kvs k <;> rfl

/-- When an incoming meal entry's own string field is non-empty, the merged
entry keeps it verbatim. -/
theorem jstrField_mealMergedEntry (pid sid : String) (kvs : List (String × Json))
    (hnd : NodupKeys kvs) (k : String) (h : jstrField (.obj kvs) k ≠ "") :
    jstrField (mealMergedEntry pid sid (.obj kvs)) k = jstrField (.obj kvs) k := by
  unfold jstrField
  rw [jget_mealMergedEntry pid sid kvs hnd k]
  cases hf : afind kvs k with
  | some v =>
      show (if truthy v then pyStr v else "") = _
      have : jget (.obj kvs) k = v := by
        show (afind kvs k).getD .null = v
        rw [hf]
        rfl
      rw [this]
  | none =>
      exfalso
      apply h
      show (if truthy (jget (.obj kvs) k) then pyStr (jget (.obj kvs) k) else "") = ""
      have : jget (.obj kvs) k = .null := by
        show (afind kvs k).getD .null = .null
        rw [hf]
        rfl
      rw [this]
      rfl

theorem mealLoadStep_valid {idx : List ((String × String) × Json)}
    (hm : ∀ p ∈ idx, rawPid p.2 ≠ "" ∧ rawSid p.2 ≠ "") (s : Json) :
    ∀ p ∈ mealLoadStep idx s, rawPid p.2 ≠ "" ∧ rawSid p.2 ≠ "" := by
  cases s with
  | obj kvs =>
      by_cases hc : selPid (Json.obj kvs) ≠ "" ∧ selSid (Json.obj kvs) ≠ ""
      · simp only [mealLoadStep, if_pos hc]
        intro p hp
        rcases mem_aset_weak hp with h | h
        · subst h
          exact ⟨pyStrip_ne_empty hc.1, pyStrip_ne_empty hc.2⟩
        · exact hm p h
      · simp only [mealLoadStep, if_neg hc]
        exact hm
  | null => exact hm
  | bool b => exact hm
  | num q => exact hm
  | str t => exact hm
  | arr xs => exact hm

theorem mealLoadFold_valid (l : List Json) (idx : List ((String × String) × Json))
    (hm : ∀ p ∈ idx, rawPid p.2 ≠ "" ∧ rawSid p.2 ≠ "") :
    ∀ p ∈ l.foldl mealLoadStep idx, rawPid p.2 ≠ "" ∧ rawSid p.2 ≠ "" := by
  induction l generalizing idx with
  | nil => exact hm
  | cons s l ih =>
      rw [List.foldl_cons]
      exact ih _ (mealLoadStep_valid hm s)

theorem mealStep_valid {idx : List ((String × String) × Json)} {ws : List Json}
    (hm : ∀ p ∈ idx, rawPid p.2 ≠ "" ∧ rawSid p.2 ≠ "") (s : Json)
    (hobj : ∀ kvs, s = Json.obj kvs → NodupKeys kvs) :
    ∀ p ∈ (mealStep (idx, ws) s).1, rawPid p.2 ≠ "" ∧ rawSid p.2 ≠ "" := by
  by_cases hval : selPid s = "" ∨ selSid s = "" ∨ pyStrip (jstrField s "mealId") = ""
  · simp only [mealStep, if_pos hval]
    exact hm
  · have hp0 : selPid s ≠ "" := fun h => hval (Or.inl h)
    have hs0 : selSid s ≠ "" := fun h => hval (Or.inr (Or.inl h))
    simp only [mealStep, if_neg hval]
    intro p hp
    rcases mem_aset_weak hp with h | h
    · subst h
      cases s with
      | obj kvs =>
          have hnd := hobj kvs rfl
          have hpraw : jstrField (Json.obj kvs) "passengerId" ≠ "" := by
            intro hh
            apply hp0
            show pyStrip (jstrField (Json.obj kvs) "passengerId") = ""
            rw [hh]
            rfl
          have hsraw : jstrField (Json.obj kvs) "segmentId" ≠ "" := by
            intro hh
            apply hs0
            show pyStrip (jstrField (Json.obj kvs) "segmentId") = ""
            rw [hh]
            rfl
          constructor
          · show rawPid (mealMergedEntry (selPid (Json.obj kvs)) (selSid (Json.obj kvs))
              (Json.obj kvs)) ≠ ""
            unfold rawPid
            rw [jstrField_mealMergedEntry _ _ kvs hnd _ hpraw]
            exact hpraw
          · show rawSid (mealMergedEntry (selPid (Json.obj kvs)) (selSid (Json.obj kvs))
              (Json.obj kvs)) ≠ ""
            unfold rawSid
            rw [jstrField_mealMergedEntry _ _ kvs hnd _ hsraw]
            exact hsraw
      | null => exact absurd rfl hp0
      | bool b => exact absurd rfl hp0
      | num q => exact absurd rfl hp0
      | str t => exact absurd rfl hp0
      | arr xs => exact absurd rfl hp0
    · exact hm p h

theorem mealFold_valid (l : List Json) (idx : List ((String × String) × Json)) (ws : List Json)
    (hm : ∀ p ∈ idx, rawPid p.2 ≠ "" ∧ rawSid p.2 ≠ "")
    (hobj : ∀ s ∈ l, ∀ kvs, s = Json.obj kvs → NodupKeys kvs) :
    ∀ p ∈ (l.foldl mealStep (idx, ws)).1, rawPid p.2 ≠ "" ∧ rawSid p.2 ≠ "" := by
  induction l generalizing idx ws with
  | nil => exact hm
  | cons s l ih =>
      rw [List.foldl_cons]
      exact ih _ _ (mealStep_valid hm s (hobj s (List.mem_cons_self _ _)))
        (fun e he => hobj e (List.mem_cons_of_mem _ he))

/-- No merged meal entry has an empty passenger or segment id. -/
theorem merge_selections_all_valid (existing incoming : List Json)
    (hobj : ∀ s ∈ incoming, ∀ kvs, s = Json.obj kvs → NodupKeys kvs) :
    ∀ e ∈ (_merge_selections existing incoming).1, rawPid e ≠ "" ∧ rawSid e ≠ "" := by
  intro e he
  have he' : e ∈ avalues (incoming.foldl mealStep (existing.foldl mealLoadStep [], [])).1 :=
    List.mem_mergeSort.mp he
  obtain ⟨p, hp, hpe⟩ := List.mem_map.mp he'
  subst hpe
  exact mealFold_valid incoming _ [] (mealLoadFold_valid existing [] (by simp)) hobj p hp

theorem mealStep_warn_mono {idx : List ((String × String) × Json)} {ws : List Json}
    {w : Json} (s : Json) (h : w ∈ ws) : w ∈ (mealStep (idx, ws) s).2 := by
  by_cases hval : selPid s = "" ∨ selSid s = "" ∨ pyStrip (jstrField s "mealId") = ""
  · simp only [mealStep, if_pos hval]
    exact List.mem_append_left _ h
  · simp only [mealStep, if_neg hval]
    exact h

theorem mealFold_warn_mono (l : List Json) {idx : List ((String × String) × Json)}
    {ws : List Json} {w : Json} (h : w ∈ ws) : w ∈ (l.foldl mealStep (idx, ws)).2 := by
  induction l generalizing idx ws with
  | nil => exact h
  | cons s l ih =>
      rw [List.foldl_cons]
      exact ih (mealStep_warn_mono s h)

/-- A meal selection without passenger or segment id is reported with a
`MEAL_SELECTION_INVALID` warning. -/
theorem mealFold_invalid_warned (l : List Json) (idx : List ((String × String) × Json))
    (ws : List Json) :
    ∀ sel ∈ l, selPid sel = "" ∨ selSid sel = "" →
      wMealInvalid (selPid sel) (selSid sel) (pyStrip (jstrField sel "mealId")) ∈
        (l.foldl mealStep (idx, ws)).2 := by
  induction l generalizing idx ws with
  | nil =>
      intro sel h
      cases h
  | cons s l ih =>
      intro sel hsel hinv
      rw [List.foldl_cons]
      rcases List.mem_cons.mp hsel with h | h
      · subst h
        have hval : selPid sel = "" ∨ selSid sel = "" ∨ pyStrip (jstrField sel "mealId") = "" := by
          rcases hinv with h | h
          · exact Or.inl h
          · exact Or.inr (Or.inl h)
        refine mealFold_warn_mono l ?_
        show wMealInvalid (selPid sel) (selSid sel) (pyStrip (jstrField sel "mealId")) ∈
          (mealStep (idx, ws) sel).2
        simp only [mealStep, if_pos hval]
        exact List.mem_append_right _ (List.mem_singleton.mpr rfl)
      · exact ih _ _ sel h hinv

theorem jstrField_head {k v : String} {rest : List (String × Json)} (h : v ≠ "") :
    jstrField (Json.obj ((k, Json.str v) :: rest)) k = v := by
  simp [jstrField, jget, afind, truthy, pyStr, h]

theorem jstrField_second {k1 k2 v : String} {v1 : Json} {rest : List (String × Json)}
    (hne : k1 ≠ k2) (h : v ≠ "") :
    jstrField (Json.obj ((k1, v1) :: (k2, Json.str v) :: rest)) k2 = v := by
  simp [jstrField, jget, afind, truthy, pyStr, h, hne]

theorem bagRid_ne_empty (sel : Json) : bagRid sel ≠ "" := by
  unfold bagRid
  by_cases h : pyStrip (jstrField sel "routeId") ≠ ""
  · rw [if_pos h]
    exact h
  · rw [if_neg h]
    decide

theorem bagStep_all_valid {cur now : String} {st : List Json × List Json × List Json}
    (hm : ∀ e ∈ st.1, jstrField e "passengerId" ≠ "" ∧ jstrField e "routeId" ≠ "")
    (sel : Json) :
    ∀ e ∈ (bagStep cur now st sel).1,
      jstrField e "passengerId" ≠ "" ∧ jstrField e "routeId" ≠ "" := by
  by_cases hpid : pyStrip (jstrField sel "passengerId") = ""
  · simp only [bagStep, if_pos hpid]
    exact hm
  · simp only [bagStep, if_neg hpid]
    intro e he
    rcases List.mem_append.mp he with h | h
    · exact hm e h
    · rw [List.mem_singleton.mp h]
      have hp : pyStrip (jstrField sel "passengerId") ≠ "" := hpid
      constructor
      · rw [jstrField_head hp]
        exact hp
      · rw [jstrField_second (by decide) (bagRid_ne_empty sel)]
        exact bagRid_ne_empty sel

theorem bagFold_all_valid (l : List Json) (cur now : String)
    (st : List Json × List Json × List Json)
    (hm : ∀ e ∈ st.1, jstrField e "passengerId" ≠ "" ∧ jstrField e "routeId" ≠ "") :
    ∀ e ∈ (l.foldl (bagStep cur now) st).1,
      jstrField e "passengerId" ≠ "" ∧ jstrField e "routeId" ≠ "" := by
  induction l generalizing st with
  | nil => exact hm
  | cons s l ih =>
      rw [List.foldl_cons]
      exact ih _ (bagStep_all_valid hm s)

theorem bagStep_warn_mono {cur now : String} {st : List Json × List Json × List Json}
    {w : Json} (sel : Json) (h : w ∈ st.2.2) : w ∈ (bagStep cur now st sel).2.2 := by
  by_cases hpid : pyStrip (jstrField sel "passengerId") = ""
  · simp only [bagStep, if_pos hpid]
    exact List.mem_append_left _ h
  · simp only [bagStep, if_neg hpid]
    by_cases hlim : 2 < (match (if truthy (jget sel "baggageIds") then jget sel "baggageIds"
        else Json.arr []) with | Json.arr xs => xs | _ => ([] : List Json)).length
    · rw [if_pos hlim]
      exact List.mem_append_left _ h
    · rw [if_neg hlim]
      exact h

theorem bagFold_warn_mono (l : List Json) {cur now : String}
    {st : List Json × List Json × List Json} {w : Json} (h : w ∈ st.2.2) :
    w ∈ (l.foldl (bagStep cur now) st).2.2 := by
  induction l generalizing st with
  | nil => exact h
  | cons s l ih =>
      rw [List.foldl_cons]
      exact ih (bagStep_warn_mono s h)

/-- A baggage selection without passenger id is reported with a
`BAG_SELECTION_INVALID` warning. -/
theorem bagFold_invalid_warned (l : List Json) (cur now : String)
    (st : List Json × List Json × List Json) :
    ∀ sel ∈ l, pyStrip (jstrField sel "passengerId") = "" →
      wBagInvalid (bagRid sel) ∈ (l.foldl (bagStep cur now) st).2.2 := by
  induction l generalizing st with
  | nil =>
      intro sel h
      cases h
  | cons s l ih =>
      intro sel hsel hinv
      rw [List.foldl_cons]
      rcases List.mem_cons.mp hsel with h | h
      · subst h
        refine bagFold_warn_mono l ?_
        show wBagInvalid (bagRid sel) ∈ (bagStep cur now st sel).2.2
        simp only [bagStep, if_pos hinv]
        exact List.mem_append_right _ (List.mem_singleton.mpr rfl)
      · exact ih _ sel h hinv

/-- C6 counterexample: a baggage selection with a non-empty passenger id but
an EMPTY route id is not dropped and produces no warning — it is stored with
the default route id "route-0" (both in the returned normalized list and in
the air's ancillaries mapping), contradicting the claim that an entry is
written only if it has a non-empty route id and is otherwise dropped with a
warning. -/
theorem bag_empty_route_not_dropped :
    (_apply_baggage ctx0 "O1" "C1" "A1" [bagSel "P1" "" ["B1"]] "USD" "t1" s0).1.2.2 = [] ∧
    ((_apply_baggage ctx0 "O1" "C1" "A1" [bagSel "P1" "" ["B1"]] "USD" "t1" s0).1.1.map
      (fun e => (jstrField e "passengerId", jstrField e "routeId"))) = [("P1", "route-0")] ∧
    (∃ air, afind (_apply_baggage ctx0 "O1" "C1" "A1" [bagSel "P1" "" ["B1"]] "USD" "t1"
        s0).2.airs "A1" = some air ∧
      (match afind air.ancillaries "baggageSelections" with
       | some (Json.arr l) => l.map (fun e => (jstrField e "passengerId", jstrField e "routeId"))
       | _ => []) = [("P1", "route-0")]) :=
  ⟨rfl, rfl, ⟨_, rfl, rfl⟩⟩

/-- C6 as amended.  Seats and meals behave as claimed: every entry written
into the stored selections has a non-empty passenger id and segment id, and
an incoming entry failing that validation is dropped with a
`SEAT_SELECTION_INVALID` / `MEAL_SELECTION_INVALID` warning.  For bags only
the passenger id is required (a missing one drops the entry with a
`BAG_SELECTION_INVALID` warning); an empty route id is NOT a validation
failure — it is replaced by the default "route-0" and the entry is stored —
so stored bag entries still always carry a non-empty route id. -/
theorem ancillary_validation :
    (∀ (ctx : RequestContext) (oid cid aid : String) (sels : List Json) (now : String)
       (s : MockStateStore),
      ∀ e ∈ (_update_store_seats ctx oid cid aid sels now s).1.1,
        rawPid e ≠ "" ∧ rawSid e ≠ "") ∧
    (∀ (ctx : RequestContext) (oid cid aid : String) (sels : List Json) (now : String)
       (s : MockStateStore), ∀ sel ∈ sels, selPid sel = "" ∨ selSid sel = "" →
      wSeatInvalid (selPid sel) (selSid sel) (selRn sel) (selSn sel) ∈
        (_update_store_seats ctx oid cid aid sels now s).1.2) ∧
    (∀ existing incoming : List Json,
      (∀ s ∈ incoming, ∀ kvs, s = Json.obj kvs → NodupKeys kvs) →
      ∀ e ∈ (_merge_selections existing incoming).1, rawPid e ≠ "" ∧ rawSid e ≠ "") ∧
    (∀ existing incoming : List Json, ∀ sel ∈ incoming,
      selPid sel = "" ∨ selSid sel = "" →
      wMealInvalid (selPid sel) (selSid sel) (pyStrip (jstrField sel "mealId")) ∈
        (_merge_selections existing incoming).2) ∧
    (∀ (ctx : RequestContext) (oid cid aid : String) (sels : List Json) (cur now : String)
       (s : MockStateStore), ∀ sel ∈ sels, pyStrip (jstrField sel "passengerId") = "" →
      wBagInvalid (bagRid sel) ∈ (_apply_baggage ctx oid cid aid sels cur now s).1.2.2) ∧
    (∀ (ctx : RequestContext) (oid cid aid : String) (sels : List Json) (cur now : String)
       (s : MockStateStore), ∀ e ∈ (_apply_baggage ctx oid cid aid sels cur now s).1.1,
        jstrField e "passengerId" ≠ "" ∧ jstrField e "routeId" ≠ "") := by
  refine ⟨?_, ?_, ?_, ?_, ?_, ?_⟩
  · intro ctx oid cid aid sels now s e he
    rw [update_seats_is_merge] at he
    exact mergeSeat_all_valid _ sels e he
  · intro ctx oid cid aid sels now s sel hsel hinv
    have h := congrArg Prod.snd (update_seats_is_merge ctx oid cid aid sels now s)
    rw [h]
    exact seatFold_invalid_warned sels _ _ [] sel hsel hinv
  · exact merge_selections_all_valid
  · intro existing incoming sel hsel hinv
    exact mealFold_invalid_warned incoming _ [] sel hsel hinv
  · intro ctx oid cid aid sels cur now s sel hsel hinv
    exact bagFold_invalid_warned sels cur now _ sel hsel hinv
  · intro ctx oid cid aid sels cur now s e he
    exact bagFold_all_valid sels cur now _ (by simp) e he

/-- Closed instance of C6's amended bag rule: a selection with an empty
passenger id is dropped with a `BAG_SELECTION_INVALID` warning. -/
theorem ancillary_validation_witness :
    pyStrip (jstrField (bagSel "" "R1" ["B1"]) "passengerId") = "" ∧
    wBagInvalid "R1" ∈ (_apply_baggage ctx0 "O1" "C1" "A1" [bagSel "" "R1" ["B1"]]
      "USD" "t1" s0).1.2.2 :=
  ⟨rfl, ancillary_validation.2.2.2.2.1 ctx0 "O1" "C1" "A1" [bagSel "" "R1" ["B1"]] "USD" "t1" s0
    (bagSel "" "R1" ["B1"]) (List.mem_singleton.mpr rfl) rfl⟩

/-! ## C3: replace-by-key machinery -/

theorem self_mem_aset {κ α : Type} [DecidableEq κ] (m : List (κ × α)) (k : κ) (v : α) :
    (k, v) ∈ aset m k v := by
  induction m with
  | nil => exact List.mem_singleton.mpr rfl
  | cons p t ih =>
      by_cases hp : p.1 = k
      · rw [aset, if_pos hp]
        exact List.mem_cons_self _ _
      · rw [aset, if_neg hp]
        exact List.mem_cons_of_mem _ ih

theorem mem_aset_preserve {κ α : Type} [DecidableEq κ] {m : List (κ × α)} {k : κ} {v : α}
    {p : κ × α} (hp : p ∈ m) (hk : p.1 ≠ k) : p ∈ aset m k v := by
  induction m with
  | nil => cases hp
  | cons q t ih =>
      rcases List.mem_cons.mp hp with h | h
      · subst h
        rw [aset, if_neg hk]
        exact List.mem_cons_self _ _
      · by_cases hq : q.1 = k
        · rw [aset, if_pos hq]
          exact List.mem_cons_of_mem _ h
        · rw [aset, if_neg hq]
          exact List.mem_cons_of_mem _ (ih h)

/-- The keys of `by_psg_seg` are pairwise distinct and derived from each
entry's own fields (the A and B parts of `SeatInv`, which hold without the
physical-seat hypotheses). -/
def SeatAB (m : List ((String × String) × Json)) : Prop :=
  NodupKeys m ∧ ∀ p ∈ m, p.1 = (rawPid p.2, rawSid p.2)

theorem seatStep_AB {m t : List ((String × String) × Json)} {ws : List Json}
    (h : SeatAB m) (s : Json) : SeatAB (seatStep (m, t, ws) s).1 := by
  obtain ⟨hA, hB⟩ := h
  by_cases hval : selPid s = "" ∨ selSid s = "" ∨ selRn s = "" ∨ selSn s = ""
  · simp only [seatStep, if_pos hval]
    exact ⟨hA, hB⟩
  · have hp0 : selPid s ≠ "" := fun h => hval (Or.inl h)
    have hs0 : selSid s ≠ "" := fun h => hval (Or.inr (Or.inl h))
    have hobj : (selPid s, selSid s) = (rawPid (mkSelObj s), rawSid (mkSelObj s)) := by
      rw [rawPid_mkSelObj hp0, rawSid_mkSelObj hs0]
    rcases hother : afind t (selSid s, selRn s ++ selSn s) with _ | other
    · simp only [seatStep, if_neg hval, hother]
      refine ⟨nodupKeys_aset hA _ _, ?_⟩
      intro p hp
      rcases mem_aset_of_nodup hA hp with h | ⟨h, _⟩
      · rw [h]
        exact hobj
      · exact hB p h
    · by_cases hconf : rawPid other ≠ selPid s
      · simp only [seatStep, if_neg hval, hother, if_pos hconf]
        have hA' := nodupKeys_adel hA (rawPid other, selSid s)
        refine ⟨nodupKeys_aset hA' _ _, ?_⟩
        intro p hp
        rcases mem_aset_of_nodup hA' hp with h | ⟨h, _⟩
        · rw [h]
          exact hobj
        · exact hB p (mem_adel.mp h).1
      · simp only [seatStep, if_neg hval, hother, if_neg hconf]
        refine ⟨nodupKeys_aset hA _ _, ?_⟩
        intro p hp
        rcases mem_aset_of_nodup hA hp with h | ⟨h, _⟩
        · rw [h]
          exact hobj
        · exact hB p h

theorem seatFold_AB (l : List Json) (m t : List ((String × String) × Json)) (ws : List Json)
    (h : SeatAB m) : SeatAB (l.foldl seatStep (m, t, ws)).1 := by
  induction l generalizing m t ws with
  | nil => exact h
  | cons s l ih =>
      rw [List.foldl_cons]
      exact ih _ _ _ (seatStep_AB h s)

theorem loadSeatStep_AB {m t : List ((String × String) × Json)} (h : SeatAB m) {s : Json}
    (hnorm : SeatNormed s) : SeatAB (loadSeatStep (m, t) s).1 := by
  obtain ⟨hA, hB⟩ := h
  by_cases hval : selPid s = "" ∨ selSid s = ""
  · simp only [loadSeatStep, if_pos hval]
    exact ⟨hA, hB⟩
  · simp only [loadSeatStep, if_neg hval]
    refine ⟨nodupKeys_aset hA _ _, ?_⟩
    intro p hp
    rcases mem_aset_of_nodup hA hp with h | ⟨h, _⟩
    · rw [h]
      show (selPid s, selSid s) = _
      rw [hnorm.1, hnorm.2.1]
    · exact hB p h

theorem loadFold_AB (l : List Json) (m t : List ((String × String) × Json))
    (h : SeatAB m) (hn : ∀ e ∈ l, SeatNormed e) : SeatAB (l.foldl loadSeatStep (m, t)).1 := by
  induction l generalizing m t with
  | nil => exact h
  | cons s l ih =>
      rw [List.foldl_cons]
      exact ih _ _ (loadSeatStep_AB h (hn s (List.mem_cons_self _ _)))
        (fun e he => hn e (List.mem_cons_of_mem _ he))

/-- Among the stored entries, a valid (passenger, segment) key belongs to at
most one entry — the shape repeated handler updates produce. -/
def SeatKeyUnique (L : List Json) : Prop :=
  ∀ e ∈ L, ∀ f ∈ L, selPid e ≠ "" → selSid e ≠ "" → selPid f ≠ "" → selSid f ≠ "" →
    (selPid e, selSid e) = (selPid f, selSid f) → e = f

/-- A valid stored entry whose key is unique in the remaining load ends up
bound to its key in `by_psg_seg`. -/
theorem loadFold_key_mem {e : Json} (hp0 : selPid e ≠ "") (hs0 : selSid e ≠ "")
    (l : List Json) :
    ∀ (m t : List ((String × String) × Json)),
      (∀ f ∈ l, selPid f ≠ "" → selSid f ≠ "" →
        (selPid f, selSid f) = (selPid e, selSid e) → f = e) →
      (((selPid e, selSid e), e) ∈ m ∨ e ∈ l) →
      ((selPid e, selSid e), e) ∈ (l.foldl loadSeatStep (m, t)).1 := by
  induction l with
  | nil =>
      intro m t _ hin
      rcases hin with h | h
      · exact h
      · cases h
  | cons s l ih =>
      intro m t huniq hin
      rw [List.foldl_cons]
      have hnext : ((selPid e, selSid e), e) ∈ (loadSeatStep (m, t) s).1 ∨ e ∈ l := by
        rcases hin with h | h
        · left
          by_cases hval : selPid s = "" ∨ selSid s = ""
          · simp only [loadSeatStep, if_pos hval]
            exact h
          · have hsp : selPid s ≠ "" := fun hh => hval (Or.inl hh)
            have hss : selSid s ≠ "" := fun hh => hval (Or.inr hh)
            simp only [loadSeatStep, if_neg hval]
            by_cases hks : (selPid s, selSid s) = (selPid e, selSid e)
            · have hse : s = e := huniq s (List.mem_cons_self _ _) hsp hss hks
              subst hse
              rw [hks]
              exact self_mem_aset _ _ _
            · exact mem_aset_preserve h (fun hh => hks hh.symm)
        · rcases List.mem_cons.mp h with h | h
          · subst h
            left
            have hval : ¬(selPid e = "" ∨ selSid e = "") := by
              intro hh
              rcases hh with hh | hh
              · exact hp0 hh
              · exact hs0 hh
            simp only [loadSeatStep, if_neg hval]
            exact self_mem_aset _ _ _
          · exact Or.inr h
      exact ih _ _ (fun f hf => huniq f (List.mem_cons_of_mem _ hf)) hnext

/-- During the load, every `by_seg_seat` entry keys the physical seat of its
value, and that value is still present in `by_psg_seg` under its own key. -/
def LoadTM (L : List Json) (m t : List ((String × String) × Json)) : Prop :=
  ∀ q ∈ t, q.1 = physKeyR q.2 ∧ q.2 ∈ L ∧ selPid q.2 ≠ "" ∧ selSid q.2 ≠ "" ∧
    ((rawPid q.2, rawSid q.2), q.2) ∈ m

theorem loadFold_TM {L : List Json} (hnL : ∀ f ∈ L, SeatNormed f) (hkU : SeatKeyUnique L)
    (l : List Json) (hl : ∀ f ∈ l, f ∈ L) :
    ∀ (m t : List ((String × String) × Json)), LoadTM L m t →
      LoadTM L (l.foldl loadSeatStep (m, t)).1 (l.foldl loadSeatStep (m, t)).2 := by
  induction l with
  | nil =>
      intro m t h
      exact h
  | cons s l ih =>
      intro m t h
      rw [List.foldl_cons]
      have hstep : LoadTM L (loadSeatStep (m, t) s).1 (loadSeatStep (m, t) s).2 := by
        have hsL : s ∈ L := hl s (List.mem_cons_self _ _)
        have hns := hnL s hsL
        by_cases hval : selPid s = "" ∨ selSid s = ""
        · simp only [loadSeatStep, if_pos hval]
          exact h
        · have hsp : selPid s ≠ "" := fun hh => hval (Or.inl hh)
          have hss : selSid s ≠ "" := fun hh => hval (Or.inr hh)
          simp only [loadSeatStep, if_neg hval]
          have hmem' : ∀ q ∈ t, ((rawPid q.2, rawSid q.2), q.2) ∈
              aset m (selPid s, selSid s) s := by
            intro q hq
            obtain ⟨_, hqL, hqp, hqs, hqm⟩ := h q hq
            by_cases hks : (rawPid q.2, rawSid q.2) = (selPid s, selSid s)
            · have hkq : (selPid q.2, selSid q.2) = (selPid s, selSid s) := by
                have hnq := hnL q.2 hqL
                rw [← hnq.1, ← hnq.2.1]
                exact hks
              have : q.2 = s := hkU q.2 hqL s hsL hqp hqs hsp hss hkq
              rw [this]
              have hns' := hnL s hsL
              rw [show ((rawPid s, rawSid s) : String × String) = (selPid s, selSid s) from by
                rw [hns'.1, hns'.2.1]]
              exact self_mem_aset _ _ _
            · exact mem_aset_preserve hqm hks
          by_cases hseat : selRn s ≠ "" ∧ selSn s ≠ ""
          · rw [if_pos hseat]
            intro q hq
            rcases mem_aset_weak hq with hq' | hq'
            · subst hq'
              refine ⟨?_, hsL, hsp, hss, ?_⟩
              · show ((selSid s, selRn s ++ selSn s) : String × String) = physKeyR s
                unfold physKeyR
                rw [hns.2.1, hns.2.2.1, hns.2.2.2]
              · rw [show ((rawPid s, rawSid s) : String × String) = (selPid s, selSid s) from by
                  rw [hns.1, hns.2.1]]
                exact self_mem_aset _ _ _
            · obtain ⟨hq1, hq2, hq3, hq4, _⟩ := h q hq'
              exact ⟨hq1, hq2, hq3, hq4, hmem' q hq'⟩
          · rw [if_neg hseat]
            intro q hq
            obtain ⟨hq1, hq2, hq3, hq4, _⟩ := h q hq
            exact ⟨hq1, hq2, hq3, hq4, hmem' q hq⟩
      exact ih (fun f hf => hl f (List.mem_cons_of_mem _ hf)) _ _ hstep

theorem mem_avalues_aset {κ α : Type} [DecidableEq κ] (m : List (κ × α)) (k : κ) (v : α) :
    v ∈ avalues (aset m k v) :=
  List.mem_map.mpr ⟨(k, v), self_mem_aset m k v, rfl⟩

theorem seatAB_adel {m : List ((String × String) × Json)} (h : SeatAB m) (k : String × String) :
    SeatAB (adel m k) :=
  ⟨nodupKeys_adel h.1 k, fun p hp => h.2 p (mem_adel.mp hp).1⟩

theorem seatAB_aset_sel {m : List ((String × String) × Json)} (h : SeatAB m) {s : Json}
    (hp : selPid s ≠ "") (hs : selSid s ≠ "") :
    SeatAB (aset m (selPid s, selSid s) (mkSelObj s)) := by
  refine ⟨nodupKeys_aset h.1 _ _, ?_⟩
  intro p hp'
  rcases mem_aset_of_nodup h.1 hp' with h' | ⟨h', _⟩
  · rw [h']
    show (selPid s, selSid s) = _
    rw [rawPid_mkSelObj hp, rawSid_mkSelObj hs]
  · exact h.2 p h'

/-- A valid incoming selection always ends as `aset m₁ (pid, sid) sel_obj`,
where `m₁` is the map after the (possible) eviction. -/
theorem seatStep_valid_shape (m t : List ((String × String) × Json)) (ws : List Json) (s : Json)
    (hval : ¬(selPid s = "" ∨ selSid s = "" ∨ selRn s = "" ∨ selSn s = "")) :
    ∃ m₁, (seatStep (m, t, ws) s).1 = aset m₁ (selPid s, selSid s) (mkSelObj s) ∧
      (m₁ = m ∨ ∃ other, afind t (selSid s, selRn s ++ selSn s) = some other ∧
        rawPid other ≠ selPid s ∧ m₁ = adel m (rawPid other, selSid s)) := by
  rcases hother : afind t (selSid s, selRn s ++ selSn s) with _ | other
  · exact ⟨m, by simp only [seatStep, if_neg hval, hother], Or.inl rfl⟩
  · by_cases hconf : rawPid other ≠ selPid s
    · exact ⟨adel m (rawPid other, selSid s),
        by simp only [seatStep, if_neg hval, hother, if_pos hconf],
        Or.inr ⟨other, rfl, hconf, rfl⟩⟩
    · exact ⟨m, by simp only [seatStep, if_neg hval, hother, if_neg hconf], Or.inl rfl⟩

/-- Replace-by-key, insertion side: a single valid incoming selection lands in
the merged list, and it is the unique merged entry carrying its
(passenger, segment) key. -/
theorem mergeSeat_single_replaces (L : List Json) (sel : Json)
    (hn : ∀ e ∈ L, SeatNormed e)
    (hp : selPid sel ≠ "") (hs : selSid sel ≠ "") (hr : selRn sel ≠ "") (hz : selSn sel ≠ "") :
    mkSelObj sel ∈ (mergeSeatSelections L [sel]).1 ∧
    ∀ e ∈ (mergeSeatSelections L [sel]).1,
      rawPid e = selPid sel → rawSid e = selSid sel → e = mkSelObj sel := by
  have hval : ¬(selPid sel = "" ∨ selSid sel = "" ∨ selRn sel = "" ∨ selSn sel = "") := by
    intro hh
    rcases hh with hh | hh | hh | hh
    exacts [hp hh, hs hh, hr hh, hz hh]
  have hAB₀ : SeatAB (loadSeatMaps L).1 :=
    loadFold_AB L [] [] ⟨List.nodup_nil, fun p hp' => absurd hp' (List.not_mem_nil p)⟩ hn
  obtain ⟨m₁, hm₁, hm₁p⟩ :=
    seatStep_valid_shape (loadSeatMaps L).1 (loadSeatMaps L).2 [] sel hval
  have hAB₁ : SeatAB m₁ := by
    rcases hm₁p with h | ⟨other, _, _, h⟩
    · rw [h]
      exact hAB₀
    · rw [h]
      exact seatAB_adel hAB₀ _
  have hAB' : SeatAB (aset m₁ (selPid sel, selSid sel) (mkSelObj sel)) :=
    seatAB_aset_sel hAB₁ hp hs
  have hkey0 : (mergeSeatSelections L [sel]).1 =
      avalues ((seatStep ((loadSeatMaps L).1, (loadSeatMaps L).2, []) sel).1) := rfl
  rw [hkey0, hm₁]
  constructor
  · exact mem_avalues_aset _ _ _
  · intro e he hpe hse
    obtain ⟨p, hp', hpe2⟩ := List.mem_map.mp he
    have hpk : p.1 = ((selPid sel, selSid sel) : String × String) := by
      rw [hAB'.2 p hp', hpe2, hpe, hse]
    have := eq_of_fst_eq hAB'.1 hp' (self_mem_aset m₁ (selPid sel, selSid sel) (mkSelObj sel)) hpk
    rw [← hpe2, this]

/-- Replace-by-key, preservation side: a stored entry whose key differs from
the incoming selection's key and which does not sit on the claimed physical
seat survives a single-selection update untouched. -/
theorem mergeSeat_single_preserves (L : List Json) (sel e : Json)
    (hn : ∀ f ∈ L, SeatNormed f) (hkU : SeatKeyUnique L)
    (he : e ∈ L) (hev : selPid e ≠ "") (hes : selSid e ≠ "")
    (hkey : (selPid e, selSid e) ≠ (selPid sel, selSid sel))
    (hseat : physKeyR e ≠ (selSid sel, selRn sel ++ selSn sel)) :
    e ∈ (mergeSeatSelections L [sel]).1 := by
  have h₀ : ((selPid e, selSid e), e) ∈ (loadSeatMaps L).1 := by
    refine loadFold_key_mem hev hes L [] [] ?_ (Or.inr he)
    intro f hf hfp hfs hfk
    exact hkU f hf e he hfp hfs hev hes hfk
  have hTM : LoadTM L (loadSeatMaps L).1 (loadSeatMaps L).2 := by
    refine loadFold_TM hn hkU L (fun f hf => hf) [] [] ?_
    intro q hq
    exact absurd hq (List.not_mem_nil q)
  have hkey0 : (mergeSeatSelections L [sel]).1 =
      avalues ((seatStep ((loadSeatMaps L).1, (loadSeatMaps L).2, []) sel).1) := rfl
  rw [hkey0]
  by_cases hval : selPid sel = "" ∨ selSid sel = "" ∨ selRn sel = "" ∨ selSn sel = ""
  · have hm : (seatStep ((loadSeatMaps L).1, (loadSeatMaps L).2, []) sel).1 =
        (loadSeatMaps L).1 := by
      simp only [seatStep, if_pos hval]
    rw [hm]
    exact List.mem_map.mpr ⟨_, h₀, rfl⟩
  · obtain ⟨m₁, hm₁, hm₁p⟩ :=
      seatStep_valid_shape (loadSeatMaps L).1 (loadSeatMaps L).2 [] sel hval
    rw [hm₁]
    have h₁ : ((selPid e, selSid e), e) ∈ m₁ := by
      rcases hm₁p with h | ⟨other, hfind, _, h⟩
      · rw [h]
        exact h₀
      · obtain ⟨hq1, hq2, hq3, hq4, _⟩ := hTM _ (afind_mem hfind)
        rw [h]
        refine mem_adel.mpr ⟨h₀, ?_⟩
        intro hek
        have hno := hn other hq2
        have hkOther : (selPid e, selSid e) = (selPid other, selSid other) := by
          have hsidO : rawSid other = selSid sel := congrArg Prod.fst hq1.symm
          have h1 : selPid e = selPid other := by
            have := congrArg Prod.fst hek
            simp only at this
            rw [this, hno.1]
          have h2 : selSid e = selSid other := by
            have := congrArg Prod.snd hek
            simp only at this
            rw [this, ← hsidO, hno.2.1]
          rw [h1, h2]
        have heo : e = other := hkU e he other hq2 hev hes hq3 hq4 hkOther
        apply hseat
        rw [heo]
        exact hq1.symm
    refine List.mem_map.mpr ⟨((selPid e, selSid e), e), ?_, rfl⟩
    exact mem_aset_preserve h₁ hkey

theorem selPid_mealMergedEntry (pid sid : String) {kvs : List (String × Json)}
    (hnd : NodupKeys kvs) (h : selPid (Json.obj kvs) ≠ "") :
    selPid (mealMergedEntry pid sid (Json.obj kvs)) = selPid (Json.obj kvs) := by
  have hraw : jstrField (Json.obj kvs) "passengerId" ≠ "" := pyStrip_ne_empty h
  unfold selPid
  rw [jstrField_mealMergedEntry pid sid kvs hnd _ hraw]

theorem selSid_mealMergedEntry (pid sid : String) {kvs : List (String × Json)}
    (hnd : NodupKeys kvs) (h : selSid (Json.obj kvs) ≠ "") :
    selSid (mealMergedEntry pid sid (Json.obj kvs)) = selSid (Json.obj kvs) := by
  have hraw : jstrField (Json.obj kvs) "segmentId" ≠ "" := pyStrip_ne_empty h
  unfold selSid
  rw [jstrField_mealMergedEntry pid sid kvs hnd _ hraw]

/-- Keys of the meal index are pairwise distinct and read off each entry's
own (stripped) fields. -/
def MealAB (idx : List ((String × String) × Json)) : Prop :=
  NodupKeys idx ∧ ∀ p ∈ idx, p.1 = (selPid p.2, selSid p.2)

theorem mealAB_loadStep {idx : List ((String × String) × Json)} (h : MealAB idx) (s : Json) :
    MealAB (mealLoadStep idx s) := by
  cases s with
  | obj kvs =>
      by_cases hc : selPid (Json.obj kvs) ≠ "" ∧ selSid (Json.obj kvs) ≠ ""
      · simp only [mealLoadStep, if_pos hc]
        refine ⟨nodupKeys_aset h.1 _ _, ?_⟩
        intro p hp
        rcases mem_aset_of_nodup h.1 hp with h' | ⟨h', _⟩
        · rw [h']
        · exact h.2 p h'
      · simp only [mealLoadStep, if_neg hc]
        exact h
  | null => exact h
  | bool b => exact h
  | num q => exact h
  | str t => exact h
  | arr xs => exact h

theorem mealAB_loadFold (l : List Json) :
    ∀ idx, MealAB idx → MealAB (l.foldl mealLoadStep idx) := by
  induction l with
  | nil => exact fun idx h => h
  | cons s l ih =>
      intro idx h
      rw [List.foldl_cons]
      exact ih _ (mealAB_loadStep h s)

theorem mealAB_step {idx : List ((String × String) × Json)} {ws : List Json} (s : Json)
    (h : MealAB idx) (hobj : ∀ kvs, s = Json.obj kvs → NodupKeys kvs) :
    MealAB (mealStep (idx, ws) s).1 := by
  by_cases hval : selPid s = "" ∨ selSid s = "" ∨ pyStrip (jstrField s "mealId") = ""
  · simp only [mealStep, if_pos hval]
    exact h
  · have hp0 : selPid s ≠ "" := fun hh => hval (Or.inl hh)
    have hs0 : selSid s ≠ "" := fun hh => hval (Or.inr (Or.inl hh))
    simp only [mealStep, if_neg hval]
    refine ⟨nodupKeys_aset h.1 _ _, ?_⟩
    intro p hp
    rcases mem_aset_of_nodup h.1 hp with h' | ⟨h', _⟩
    · rw [h']
      cases s with
      | obj kvs =>
          have hnd := hobj kvs rfl
          show (selPid (Json.obj kvs), selSid (Json.obj kvs)) = _
          rw [selPid_mealMergedEntry _ _ hnd hp0, selSid_mealMergedEntry _ _ hnd hs0]
      | null => exact absurd rfl hp0
      | bool b => exact absurd rfl hp0
      | num q => exact absurd rfl hp0
      | str t => exact absurd rfl hp0
      | arr xs => exact absurd rfl hp0
    · exact h.2 p h'

/-- A stored meal entry (a dict with valid ids) whose key is unique in the
remaining load ends up bound to its key in the index. -/
theorem mealLoadFold_key_mem {e : Json} {kvsE : List (String × Json)} (hE : e = Json.obj kvsE)
    (hp0 : selPid e ≠ "") (hs0 : selSid e ≠ "") (l : List Json) :
    ∀ idx : List ((String × String) × Json),
      (∀ f ∈ l, selPid f ≠ "" → selSid f ≠ "" →
        (selPid f, selSid f) = (selPid e, selSid e) → f = e) →
      (((selPid e, selSid e), e) ∈ idx ∨ e ∈ l) →
      ((selPid e, selSid e), e) ∈ l.foldl mealLoadStep idx := by
  induction l with
  | nil =>
      intro idx _ hin
      rcases hin with h | h
      · exact h
      · cases h
  | cons s l ih =>
      intro idx huniq hin
      rw [List.foldl_cons]
      have hnext : ((selPid e, selSid e), e) ∈ mealLoadStep idx s ∨ e ∈ l := by
        rcases hin with h | h
        · left
          cases s with
          | obj kvs =>
              by_cases hc : selPid (Json.obj kvs) ≠ "" ∧ selSid (Json.obj kvs) ≠ ""
              · simp only [mealLoadStep, if_pos hc]
                by_cases hks : (selPid (Json.obj kvs), selSid (Json.obj kvs)) =
                    (selPid e, selSid e)
                · have hse := huniq _ (List.mem_cons_self _ _) hc.1 hc.2 hks
                  subst hse
                  rw [hks]
                  exact self_mem_aset _ _ _
                · exact mem_aset_preserve h (fun hh => hks hh.symm)
              · simp only [mealLoadStep, if_neg hc]
                exact h
          | null => exact h
          | bool b => exact h
          | num q => exact h
          | str t => exact h
          | arr xs => exact h
        · rcases List.mem_cons.mp h with h | h
          · subst h
            left
            subst hE
            have hc : selPid (Json.obj kvsE) ≠ "" ∧ selSid (Json.obj kvsE) ≠ "" := ⟨hp0, hs0⟩
            simp only [mealLoadStep, if_pos hc]
            exact self_mem_aset _ _ _
          · exact Or.inr h
      exact ih _ (fun f hf => huniq f (List.mem_cons_of_mem _ hf)) hnext

/-- Replace-by-key for meals, insertion side: a single valid incoming meal
selection produces exactly one merged entry with its key, namely
`{"passengerId": pid, "segmentId": sid, **s}`. -/
theorem mergeMeals_single_replaces (existing : List Json) (kvs : List (String × Json))
    (hnd : NodupKeys kvs)
    (hp : selPid (Json.obj kvs) ≠ "") (hs : selSid (Json.obj kvs) ≠ "")
    (hm : pyStrip (jstrField (Json.obj kvs) "mealId") ≠ "") :
    mealMergedEntry (selPid (Json.obj kvs)) (selSid (Json.obj kvs)) (Json.obj kvs) ∈
      (_merge_selections existing [Json.obj kvs]).1 ∧
    ∀ e ∈ (_merge_selections existing [Json.obj kvs]).1,
      selPid e = selPid (Json.obj kvs) → selSid e = selSid (Json.obj kvs) →
        e = mealMergedEntry (selPid (Json.obj kvs)) (selSid (Json.obj kvs)) (Json.obj kvs) := by
  have hval : ¬(selPid (Json.obj kvs) = "" ∨ selSid (Json.obj kvs) = "" ∨
      pyStrip (jstrField (Json.obj kvs) "mealId") = "") := by
    intro hh
    rcases hh with hh | hh | hh
    exacts [hp hh, hs hh, hm hh]
  have hAB₀ : MealAB (existing.foldl mealLoadStep []) :=
    mealAB_loadFold existing [] ⟨List.nodup_nil, fun p hp' => absurd hp' (List.not_mem_nil p)⟩
  have hAB₁ : MealAB (mealStep (existing.foldl mealLoadStep [], []) (Json.obj kvs)).1 :=
    mealAB_step _ hAB₀ (fun kvs' hk => by rw [show kvs' = kvs from (Json.obj.inj hk.symm)]; exact hnd)
  have hstep : (mealStep (existing.foldl mealLoadStep [], []) (Json.obj kvs)).1 =
      aset (existing.foldl mealLoadStep []) (selPid (Json.obj kvs), selSid (Json.obj kvs))
        (mealMergedEntry (selPid (Json.obj kvs)) (selSid (Json.obj kvs)) (Json.obj kvs)) := by
    simp only [mealStep, if_neg hval]
  have hkey0 : (_merge_selections existing [Json.obj kvs]).1 =
      (avalues (mealStep (existing.foldl mealLoadStep [], []) (Json.obj kvs)).1).mergeSort
        mealSortLe := rfl
  rw [hkey0]
  constructor
  · refine List.mem_mergeSort.mpr ?_
    rw [hstep]
    exact mem_avalues_aset _ _ _
  · intro e he hpe hse
    have he' := List.mem_mergeSort.mp he
    obtain ⟨p, hp', hpe2⟩ := List.mem_map.mp he'
    have hpk : p.1 = ((selPid (Json.obj kvs), selSid (Json.obj kvs)) : String × String) := by
      rw [hAB₁.2 p hp', hpe2, hpe, hse]
    rw [hstep] at hp'
    have hself := self_mem_aset (existing.foldl mealLoadStep [])
      ((selPid (Json.obj kvs), selSid (Json.obj kvs)) : String × String)
      (mealMergedEntry (selPid (Json.obj kvs)) (selSid (Json.obj kvs)) (Json.obj kvs))
    have := eq_of_fst_eq (nodupKeys_aset hAB₀.1 _ _) hp' hself hpk
    rw [← hpe2, this]

/-- Replace-by-key for meals, preservation side: a stored entry whose key
differs from the incoming selection's key survives a single-selection update
untouched (before sorting, which keeps membership). -/
theorem mergeMeals_single_preserves (existing : List Json) (sel e : Json)
    {kvsE : List (String × Json)} (hE : e = Json.obj kvsE)
    (hkU : SeatKeyUnique existing) (he : e ∈ existing)
    (hev : selPid e ≠ "") (hes : selSid e ≠ "")
    (hkey : (selPid e, selSid e) ≠ (selPid sel, selSid sel)) :
    e ∈ (_merge_selections existing [sel]).1 := by
  have h₀ : ((selPid e, selSid e), e) ∈ existing.foldl mealLoadStep [] := by
    refine mealLoadFold_key_mem hE hev hes existing [] ?_ (Or.inr he)
    intro f hf hfp hfs hfk
    exact hkU f hf e he hfp hfs hev hes hfk
  have hkey0 : (_merge_selections existing [sel]).1 =
      (avalues (mealStep (existing.foldl mealLoadStep [], []) sel).1).mergeSort
        mealSortLe := rfl
  rw [hkey0]
  refine List.mem_mergeSort.mpr ?_
  by_cases hval : selPid sel = "" ∨ selSid sel = "" ∨ pyStrip (jstrField sel "mealId") = ""
  · have hm : (mealStep (existing.foldl mealLoadStep [], []) sel).1 =
        existing.foldl mealLoadStep [] := by
      simp only [mealStep, if_pos hval]
    rw [hm]
    exact List.mem_map.mpr ⟨_, h₀, rfl⟩
  · have hm : (mealStep (existing.foldl mealLoadStep [], []) sel).1 =
        aset (existing.foldl mealLoadStep []) (selPid sel, selSid sel)
          (mealMergedEntry (selPid sel) (selSid sel) sel) := by
      simp only [mealStep, if_neg hval]
    rw [hm]
    exact List.mem_map.mpr ⟨_, mem_aset_preserve h₀ hkey, rfl⟩

/-- C3, counterexample for the bags part.  The claim says stored entries
whose (passengerId, routeId) key does not appear in the incoming payload are
left untouched.  In the code `_apply_baggage` wholly replaces the stored
`baggageSelections` list: after storing a selection for (P1, R1), an update
carrying only (P2, R2) leaves (P2, R2) as the sole stored selection — the
(P1, R1) entry is gone although its key was not in the incoming payload. -/
theorem bags_full_replace_counterexample :
    (∃ air, afind ((_apply_baggage ctx0 "O1" "C1" "A1" [bagSel "P1" "R1" ["B1"]]
        "USD" "t1" s0).2.airs) "A1" = some air ∧
      (match afind air.ancillaries "baggageSelections" with
       | some (Json.arr xs) =>
           xs.map (fun e => (jstrField e "passengerId", jstrField e "routeId"))
       | _ => []) = [("P1", "R1")]) ∧
    (∃ air, afind ((_apply_baggage ctx0 "O1" "C1" "A1" [bagSel "P2" "R2" ["B2"]] "USD" "t2"
        ((_apply_baggage ctx0 "O1" "C1" "A1" [bagSel "P1" "R1" ["B1"]] "USD" "t1"
          s0).2)).2.airs) "A1" = some air ∧
      (match afind air.ancillaries "baggageSelections" with
       | some (Json.arr xs) =>
           xs.map (fun e => (jstrField e "passengerId", jstrField e "routeId"))
       | _ => []) = [("P2", "R2")]) :=
  ⟨⟨_, rfl, rfl⟩, ⟨_, rfl, rfl⟩⟩

/-- C3 (amended).  Merging incoming selections into the stored list is
replace-by-(passengerId, segmentId) for seats and meals: (1) the claim's own
example — seat (P1, S1, 12, A) then (P1, S1, 14, C) leaves exactly one stored
selection, at row 14 col C; (2) a valid incoming seat selection is stored and
is the unique stored entry with its key; (3) a stored seat entry with a
different key, not sitting on the claimed physical seat, survives untouched;
(4) a valid incoming meal selection is stored as
`{"passengerId": pid, "segmentId": sid, **s}` and is the unique stored entry
with its key; (5) a stored meal entry with a different key survives
untouched.  For bags, however, the handler is full-replace, not partial
update: (6) the stored `baggageSelections` list is a function of the
incoming payload alone, independent of what was stored before. -/
theorem ancillary_replace_by_key :
    ((mergeSeatSelections (mergeSeatSelections [] [seatEntry "P1" "S1" "12" "A"]).1
        [seatEntry "P1" "S1" "14" "C"]).1.map
      (fun e => (rawPid e, rawSid e, rawRn e, rawSn e)) = [("P1", "S1", "14", "C")]) ∧
    (∀ (L : List Json) (sel : Json), (∀ e ∈ L, SeatNormed e) →
      selPid sel ≠ "" → selSid sel ≠ "" → selRn sel ≠ "" → selSn sel ≠ "" →
      mkSelObj sel ∈ (mergeSeatSelections L [sel]).1 ∧
      ∀ e ∈ (mergeSeatSelections L [sel]).1,
        rawPid e = selPid sel → rawSid e = selSid sel → e = mkSelObj sel) ∧
    (∀ (L : List Json) (sel e : Json), (∀ f ∈ L, SeatNormed f) → SeatKeyUnique L →
      e ∈ L → selPid e ≠ "" → selSid e ≠ "" →
      (selPid e, selSid e) ≠ (selPid sel, selSid sel) →
      physKeyR e ≠ (selSid sel, selRn sel ++ selSn sel) →
      e ∈ (mergeSeatSelections L [sel]).1) ∧
    (∀ (existing : List Json) (kvs : List (String × Json)), NodupKeys kvs →
      selPid (Json.obj kvs) ≠ "" → selSid (Json.obj kvs) ≠ "" →
      pyStrip (jstrField (Json.obj kvs) "mealId") ≠ "" →
      mealMergedEntry (selPid (Json.obj kvs)) (selSid (Json.obj kvs)) (Json.obj kvs) ∈
        (_merge_selections existing [Json.obj kvs]).1 ∧
      ∀ e ∈ (_merge_selections existing [Json.obj kvs]).1,
        selPid e = selPid (Json.obj kvs) → selSid e = selSid (Json.obj kvs) →
          e = mealMergedEntry (selPid (Json.obj kvs)) (selSid (Json.obj kvs)) (Json.obj kvs)) ∧
    (∀ (existing : List Json) (sel e : Json) (kvsE : List (String × Json)),
      e = Json.obj kvsE → SeatKeyUnique existing → e ∈ existing →
      selPid e ≠ "" → selSid e ≠ "" →
      (selPid e, selSid e) ≠ (selPid sel, selSid sel) →
      e ∈ (_merge_selections existing [sel]).1) ∧
    (∀ (ctx : RequestContext) (oid cid aid : String) (sels : List Json) (cur now : String)
       (s s' : MockStateStore),
      (_apply_baggage ctx oid cid aid sels cur now s).1.1 =
        (sels.foldl (bagStep cur now) ([], [], [])).1 ∧
      (_apply_baggage ctx oid cid aid sels cur now s).1.1 =
        (_apply_baggage ctx oid cid aid sels cur now s').1.1) := by
  refine ⟨by decide, ?_, ?_, ?_, ?_, ?_⟩
  · intro L sel hn hp hs hr hz
    exact mergeSeat_single_replaces L sel hn hp hs hr hz
  · intro L sel e hn hkU he hev hes hkey hseat
    exact mergeSeat_single_preserves L sel e hn hkU he hev hes hkey hseat
  · intro existing kvs hnd hp hs hm
    exact mergeMeals_single_replaces existing kvs hnd hp hs hm
  · intro existing sel e kvsE hE hkU he hev hes hkey
    exact mergeMeals_single_preserves existing sel e hE hkU he hev hes hkey
  · intro ctx oid cid aid sels cur now s s'
    exact ⟨rfl, rfl⟩

/-- Witness for the amended C3 theorem: its seat-preservation part applied at
a concrete store — P1's (S1, 12A) selection survives an update assigning P2
the unrelated seat (S2, 14C). -/
theorem ancillary_replace_by_key_witness :
    seatEntry "P1" "S1" "12" "A" ∈
      (mergeSeatSelections [seatEntry "P1" "S1" "12" "A"] [seatEntry "P2" "S2" "14" "C"]).1 := by
  refine ancillary_replace_by_key.2.2.1 [seatEntry "P1" "S1" "12" "A"]
    (seatEntry "P2" "S2" "14" "C") (seatEntry "P1" "S1" "12" "A") ?_ ?_
    (List.mem_singleton.mpr rfl) (by decide) (by decide) (by decide) (by decide)
  · intro e he
    rw [List.mem_singleton.mp he]
    refine ⟨by decide, by decide, by decide, by decide⟩
  · intro e he f hf _ _ _ _ _
    rw [List.mem_singleton.mp he, List.mem_singleton.mp hf]

/-! ## C8: ensure_from_request machinery -/

theorem ensure_conversation_frame (ctx : RequestContext) (now : String) (s : MockStateStore) :
    (ensure_conversation ctx now s).2.2.orders = s.orders ∧
    (ensure_conversation ctx now s).2.2.shopping_carts = s.shopping_carts ∧
    (ensure_conversation ctx now s).2.2.airs = s.airs ∧
    (ensure_conversation ctx now s).2.2.profiles = s.profiles := by
  unfold ensure_conversation
  cases afind s.conversations ctx.conversation_id <;> exact ⟨rfl, rfl, rfl, rfl⟩

theorem ensure_order_frame (oid : String) (ctx : RequestContext) (now : String)
    (s : MockStateStore) :
    (ensure_order oid ctx now s).2.2.conversations = s.conversations ∧
    (ensure_order oid ctx now s).2.2.shopping_carts = s.shopping_carts ∧
    (ensure_order oid ctx now s).2.2.airs = s.airs ∧
    (ensure_order oid ctx now s).2.2.profiles = s.profiles := by
  unfold ensure_order
  cases afind s.orders oid <;> exact ⟨rfl, rfl, rfl, rfl⟩

theorem ensure_shopping_cart_frame (oid cid : String) (now : String) (s : MockStateStore) :
    (ensure_shopping_cart oid cid now s).2.2.conversations = s.conversations ∧
    (ensure_shopping_cart oid cid now s).2.2.orders = s.orders ∧
    (ensure_shopping_cart oid cid now s).2.2.airs = s.airs ∧
    (ensure_shopping_cart oid cid now s).2.2.profiles = s.profiles := by
  unfold ensure_shopping_cart
  cases afind s.shopping_carts cid <;> exact ⟨rfl, rfl, rfl, rfl⟩

theorem ensure_air_frame (oid cid aid : String) (now : String) (s : MockStateStore) :
    (ensure_air oid cid aid now s).2.2.conversations = s.conversations ∧
    (ensure_air oid cid aid now s).2.2.orders = s.orders ∧
    (ensure_air oid cid aid now s).2.2.shopping_carts = s.shopping_carts ∧
    (ensure_air oid cid aid now s).2.2.profiles = s.profiles := by
  unfold ensure_air
  cases afind s.airs aid <;> exact ⟨rfl, rfl, rfl, rfl⟩

theorem ensure_profile_frame (pid : String) (now : String) (s : MockStateStore) :
    (ensure_profile pid now s).2.2.conversations = s.conversations ∧
    (ensure_profile pid now s).2.2.orders = s.orders ∧
    (ensure_profile pid now s).2.2.shopping_carts = s.shopping_carts ∧
    (ensure_profile pid now s).2.2.airs = s.airs := by
  unfold ensure_profile
  cases afind s.profiles pid <;> exact ⟨rfl, rfl, rfl, rfl⟩

theorem ensure_conversation_finds (ctx : RequestContext) (now : String) (s : MockStateStore) :
    afind (ensure_conversation ctx now s).2.2.conversations ctx.conversation_id =
      some (ensure_conversation ctx now s).1 := by
  unfold ensure_conversation
  cases afind s.conversations ctx.conversation_id <;> exact afind_aset_self _ _ _

theorem ensure_order_finds (oid : String) (ctx : RequestContext) (now : String)
    (s : MockStateStore) :
    afind (ensure_order oid ctx now s).2.2.orders oid = some (ensure_order oid ctx now s).1 := by
  unfold ensure_order
  cases afind s.orders oid <;> exact afind_aset_self _ _ _

theorem ensure_shopping_cart_finds (oid cid : String) (now : String) (s : MockStateStore) :
    afind (ensure_shopping_cart oid cid now s).2.2.shopping_carts cid =
      some (ensure_shopping_cart oid cid now s).1 := by
  unfold ensure_shopping_cart
  cases afind s.shopping_carts cid <;> exact afind_aset_self _ _ _

theorem ensure_air_finds (oid cid aid : String) (now : String) (s : MockStateStore) :
    afind (ensure_air oid cid aid now s).2.2.airs aid = some (ensure_air oid cid aid now s).1 := by
  unfold ensure_air
  cases afind s.airs aid <;> exact afind_aset_self _ _ _

theorem ensure_conversation_created (ctx : RequestContext) (now : String) (s : MockStateStore) :
    (ensure_conversation ctx now s).2.1 = (afind s.conversations ctx.conversation_id).isNone := by
  unfold ensure_conversation
  cases afind s.conversations ctx.conversation_id <;> rfl

theorem ensure_order_created (oid : String) (ctx : RequestContext) (now : String)
    (s : MockStateStore) :
    (ensure_order oid ctx now s).2.1 = (afind s.orders oid).isNone := by
  unfold ensure_order
  cases afind s.orders oid <;> rfl

theorem ensure_shopping_cart_created (oid cid : String) (now : String) (s : MockStateStore) :
    (ensure_shopping_cart oid cid now s).2.1 = (afind s.shopping_carts cid).isNone := by
  unfold ensure_shopping_cart
  cases afind s.shopping_carts cid <;> rfl

theorem ensure_air_created (oid cid aid : String) (now : String) (s : MockStateStore) :
    (ensure_air oid cid aid now s).2.1 = (afind s.airs aid).isNone := by
  unfold ensure_air
  cases afind s.airs aid <;> rfl

theorem ensure_profile_created (pid : String) (now : String) (s : MockStateStore) :
    (ensure_profile pid now s).2.1 = (afind s.profiles pid).isNone := by
  unfold ensure_profile
  cases afind s.profiles pid <;> rfl

theorem ensure_air_none {aid : String} {s : MockStateStore} (oid cid now : String)
    (h : afind s.airs aid = none) :
    ensure_air oid cid aid now s =
      ({ air_id := aid, order_id := oid, shopping_cart_id := cid,
         created_at := now, updated_at := now, revision := s.global_revision + 1 }, true,
       { s with global_revision := s.global_revision + 1,
                airs := aset s.airs aid
                  { air_id := aid, order_id := oid, shopping_cart_id := cid,
                    created_at := now, updated_at := now,
                    revision := s.global_revision + 1 } }) := by
  unfold ensure_air
  rw [h]

/-- The order stage of `ensure_from_request`, as a function of the running
(warnings, store) pair. -/
def efrStage1 (oid : String) (ctx : RequestContext) (now : String)
    (st : List Json × MockStateStore) : List Json × MockStateStore :=
  if oid ≠ "" then
    (st.1 ++ (if (ensure_order oid ctx now st.2).2.1 then [wOrderCreated oid] else []),
     (ensure_order oid ctx now st.2).2.2)
  else st

/-- The cart stage of `ensure_from_request`. -/
def efrStage2 (oid cid : String) (now : String) (st : List Json × MockStateStore) :
    List Json × MockStateStore :=
  if oid ≠ "" ∧ cid ≠ "" then
    (st.1 ++ (if (ensure_shopping_cart oid cid now st.2).2.1 then [wCartCreated oid cid] else []),
     (ensure_shopping_cart oid cid now st.2).2.2)
  else st

/-- The air stage of `ensure_from_request`, including the
cart→selected_airs link maintenance. -/
def efrStage3 (oid cid aid : String) (now : String) (st : List Json × MockStateStore) :
    List Json × MockStateStore :=
  if oid ≠ "" ∧ cid ≠ "" ∧ aid ≠ "" then
    let res := ensure_air oid cid aid now st.2
    let res2 := ensure_shopping_cart oid cid now res.2.2
    let s3 :=
      if res.1.air_id ∈ res2.1.selected_airs then res2.2.2
      else
        let g := res2.2.2.global_revision + 1
        let cart' := { res2.1 with selected_airs := res2.1.selected_airs ++ [res.1.air_id],
                                   revision := g }
        { res2.2.2 with global_revision := g,
                        shopping_carts := aset res2.2.2.shopping_carts cid cart' }
    (st.1 ++ (if res.2.1 then [wAirCreated oid cid aid] else []), s3)
  else st

/-- The profile stage of `ensure_from_request`. -/
def efrStage4 (pid : String) (now : String) (st : List Json × MockStateStore) :
    List Json × MockStateStore :=
  if pid ≠ "" then
    (st.1 ++ (if (ensure_profile pid now st.2).2.1 then [wProfileCreated pid] else []),
     (ensure_profile pid now st.2).2.2)
  else st

set_option maxHeartbeats 1600000 in
/-- `ensure_from_request` is the conversation step followed by the four
stages, in order. -/
theorem efr_as_stages (ctx : RequestContext) (pp : PathParams) (now : String)
    (s₀ : MockStateStore) :
    ensure_from_request ctx pp now s₀ =
      efrStage4 (effParam pp.profileId pp.profile_id) now
        (efrStage3 (effParam pp.orderId pp.order_id)
          (effParam pp.shoppingCartId pp.shopping_cart_id) (effParam pp.airId pp.air_id) now
          (efrStage2 (effParam pp.orderId pp.order_id)
            (effParam pp.shoppingCartId pp.shopping_cart_id) now
            (efrStage1 (effParam pp.orderId pp.order_id) ctx now
              ((if (ensure_conversation ctx now s₀).2.1 then [wConvCreated ctx.conversation_id]
                else []),
               (ensure_conversation ctx now s₀).2.2)))) := rfl

theorem efrStage1_id {oid : String} (ctx : RequestContext) (now : String)
    (st : List Json × MockStateStore) (h : ¬oid ≠ "") : efrStage1 oid ctx now st = st := by
  unfold efrStage1
  rw [if_neg h]

theorem efrStage1_pos {oid : String} (ctx : RequestContext) (now : String)
    (st : List Json × MockStateStore) (h : oid ≠ "") :
    efrStage1 oid ctx now st =
      (st.1 ++ (if (ensure_order oid ctx now st.2).2.1 then [wOrderCreated oid] else []),
       (ensure_order oid ctx now st.2).2.2) := by
  unfold efrStage1
  rw [if_pos h]

theorem efrStage2_id {oid cid : String} (now : String) (st : List Json × MockStateStore)
    (h : ¬(oid ≠ "" ∧ cid ≠ "")) : efrStage2 oid cid now st = st := by
  unfold efrStage2
  rw [if_neg h]

theorem efrStage2_pos {oid cid : String} (now : String) (st : List Json × MockStateStore)
    (h : oid ≠ "" ∧ cid ≠ "") :
    efrStage2 oid cid now st =
      (st.1 ++ (if (ensure_shopping_cart oid cid now st.2).2.1 then [wCartCreated oid cid]
        else []),
       (ensure_shopping_cart oid cid now st.2).2.2) := by
  unfold efrStage2
  rw [if_pos h]

theorem efrStage3_id {oid cid aid : String} (now : String) (st : List Json × MockStateStore)
    (h : ¬(oid ≠ "" ∧ cid ≠ "" ∧ aid ≠ "")) : efrStage3 oid cid aid now st = st := by
  unfold efrStage3
  rw [if_neg h]

theorem efrStage4_id {pid : String} (now : String) (st : List Json × MockStateStore)
    (h : ¬pid ≠ "") : efrStage4 pid now st = st := by
  unfold efrStage4
  rw [if_neg h]

theorem efrStage4_pos {pid : String} (now : String) (st : List Json × MockStateStore)
    (h : pid ≠ "") :
    efrStage4 pid now st =
      (st.1 ++ (if (ensure_profile pid now st.2).2.1 then [wProfileCreated pid] else []),
       (ensure_profile pid now st.2).2.2) := by
  unfold efrStage4
  rw [if_pos h]

theorem efrStage1_frame (oid : String) (ctx : RequestContext) (now : String)
    (st : List Json × MockStateStore) :
    (efrStage1 oid ctx now st).2.conversations = st.2.conversations ∧
    (efrStage1 oid ctx now st).2.shopping_carts = st.2.shopping_carts ∧
    (efrStage1 oid ctx now st).2.airs = st.2.airs ∧
    (efrStage1 oid ctx now st).2.profiles = st.2.profiles := by
  unfold efrStage1
  split
  · exact ⟨(ensure_order_frame _ _ _ _).1, (ensure_order_frame _ _ _ _).2.1,
      (ensure_order_frame _ _ _ _).2.2.1, (ensure_order_frame _ _ _ _).2.2.2⟩
  · exact ⟨rfl, rfl, rfl, rfl⟩

theorem efrStage2_frame (oid cid : String) (now : String) (st : List Json × MockStateStore) :
    (efrStage2 oid cid now st).2.conversations = st.2.conversations ∧
    (efrStage2 oid cid now st).2.orders = st.2.orders ∧
    (efrStage2 oid cid now st).2.airs = st.2.airs ∧
    (efrStage2 oid cid now st).2.profiles = st.2.profiles := by
  unfold efrStage2
  split
  · exact ⟨(ensure_shopping_cart_frame _ _ _ _).1, (ensure_shopping_cart_frame _ _ _ _).2.1,
      (ensure_shopping_cart_frame _ _ _ _).2.2.1, (ensure_shopping_cart_frame _ _ _ _).2.2.2⟩
  · exact ⟨rfl, rfl, rfl, rfl⟩

theorem efrStage3_frame (oid cid aid : String) (now : String) (st : List Json × MockStateStore) :
    (efrStage3 oid cid aid now st).2.conversations = st.2.conversations ∧
    (efrStage3 oid cid aid now st).2.orders = st.2.orders ∧
    (efrStage3 oid cid aid now st).2.profiles = st.2.profiles := by
  unfold efrStage3
  split
  · constructor
    · show (if _ ∈ _ then _ else _ : MockStateStore).conversations = _
      split <;>
        simp [ensure_shopping_cart_frame, ensure_air_frame]
    · constructor
      · show (if _ ∈ _ then _ else _ : MockStateStore).orders = _
        split <;>
          simp [ensure_shopping_cart_frame, ensure_air_frame]
      · show (if _ ∈ _ then _ else _ : MockStateStore).profiles = _
        split <;>
          simp [ensure_shopping_cart_frame, ensure_air_frame]
  · exact ⟨rfl, rfl, rfl⟩

theorem efrStage3_airs (oid cid aid : String) (now : String) (st : List Json × MockStateStore)
    (h : ¬(oid ≠ "" ∧ cid ≠ "" ∧ aid ≠ "")) :
    (efrStage3 oid cid aid now st).2.airs = st.2.airs := by
  rw [efrStage3_id now st h]

theorem efrStage4_frame (pid : String) (now : String) (st : List Json × MockStateStore) :
    (efrStage4 pid now st).2.conversations = st.2.conversations ∧
    (efrStage4 pid now st).2.orders = st.2.orders ∧
    (efrStage4 pid now st).2.shopping_carts = st.2.shopping_carts ∧
    (efrStage4 pid now st).2.airs = st.2.airs := by
  unfold efrStage4
  split
  · exact ⟨(ensure_profile_frame _ _ _).1, (ensure_profile_frame _ _ _).2.1,
      (ensure_profile_frame _ _ _).2.2.1, (ensure_profile_frame _ _ _).2.2.2⟩
  · exact ⟨rfl, rfl, rfl, rfl⟩

theorem efrStage1_warnings (oid : String) (ctx : RequestContext) (now : String)
    (st : List Json × MockStateStore) :
    (efrStage1 oid ctx now st).1 =
      st.1 ++ (if oid ≠ "" ∧ (afind st.2.orders oid).isNone then [wOrderCreated oid] else []) := by
  by_cases h : oid ≠ ""
  · rw [efrStage1_pos ctx now st h]
    show st.1 ++ _ = _
    rw [ensure_order_created]
    cases hx : afind st.2.orders oid with
    | none => simp [h, hx]
    | some v => simp [h, hx]
  · rw [efrStage1_id ctx now st h, if_neg (fun hc => h hc.1), List.append_nil]

theorem efrStage2_warnings (oid cid : String) (now : String)
    (st : List Json × MockStateStore) :
    (efrStage2 oid cid now st).1 =
      st.1 ++ (if oid ≠ "" ∧ cid ≠ "" ∧ (afind st.2.shopping_carts cid).isNone
        then [wCartCreated oid cid] else []) := by
  by_cases h : oid ≠ "" ∧ cid ≠ ""
  · rw [efrStage2_pos now st h]
    show st.1 ++ _ = _
    rw [ensure_shopping_cart_created]
    cases hx : afind st.2.shopping_carts cid with
    | none => simp [h.1, h.2, hx]
    | some v => simp [h.1, h.2, hx]
  · rw [efrStage2_id now st h, if_neg (fun hc => h ⟨hc.1, hc.2.1⟩), List.append_nil]

theorem efrStage3_warnings (oid cid aid : String) (now : String)
    (st : List Json × MockStateStore) :
    (efrStage3 oid cid aid now st).1 =
      st.1 ++ (if oid ≠ "" ∧ cid ≠ "" ∧ aid ≠ "" ∧ (afind st.2.airs aid).isNone
        then [wAirCreated oid cid aid] else []) := by
  by_cases h : oid ≠ "" ∧ cid ≠ "" ∧ aid ≠ ""
  · simp only [efrStage3, if_pos h]
    rw [ensure_air_created]
    cases hx : afind st.2.airs aid with
    | none => simp [h.1, h.2.1, h.2.2, hx]
    | some v => simp [h.1, h.2.1, h.2.2, hx]
  · rw [efrStage3_id now st h, if_neg (fun hc => h ⟨hc.1, hc.2.1, hc.2.2.1⟩), List.append_nil]

theorem efrStage4_warnings (pid : String) (now : String) (st : List Json × MockStateStore) :
    (efrStage4 pid now st).1 =
      st.1 ++ (if pid ≠ "" ∧ (afind st.2.profiles pid).isNone then [wProfileCreated pid]
        else []) := by
  by_cases h : pid ≠ ""
  · rw [efrStage4_pos now st h]
    show st.1 ++ _ = _
    rw [ensure_profile_created]
    cases hx : afind st.2.profiles pid with
    | none => simp [h, hx]
    | some v => simp [h, hx]
  · rw [efrStage4_id now st h, if_neg (fun hc => h hc.1), List.append_nil]

/-- When all three ids are present, the air stage leaves behind a found air
and a found cart whose `selected_airs` holds the air's id; if the air was
created, its identity fields come from the path ids. -/
theorem efrStage3_links (oid cid aid : String) (now : String)
    (st : List Json × MockStateStore) (h : oid ≠ "" ∧ cid ≠ "" ∧ aid ≠ "") :
    ∃ air cart,
      afind (efrStage3 oid cid aid now st).2.airs aid = some air ∧
      afind (efrStage3 oid cid aid now st).2.shopping_carts cid = some cart ∧
      air.air_id ∈ cart.selected_airs ∧
      (afind st.2.airs aid = none →
        air.air_id = aid ∧ air.order_id = oid ∧ air.shopping_cart_id = cid) := by
  simp only [efrStage3, if_pos h]
  by_cases hmem : (ensure_air oid cid aid now st.2).1.air_id ∈
      (ensure_shopping_cart oid cid now (ensure_air oid cid aid now st.2).2.2).1.selected_airs
  · rw [if_pos hmem]
    refine ⟨(ensure_air oid cid aid now st.2).1,
      (ensure_shopping_cart oid cid now (ensure_air oid cid aid now st.2).2.2).1,
      ?_, ensure_shopping_cart_finds _ _ _ _, hmem, ?_⟩
    · rw [(ensure_shopping_cart_frame _ _ _ _).2.2.1]
      exact ensure_air_finds _ _ _ _ _
    · intro hnone
      rw [ensure_air_none oid cid now hnone]
      exact ⟨rfl, rfl, rfl⟩
  · rw [if_neg hmem]
    refine ⟨(ensure_air oid cid aid now st.2).1, _, ?_, afind_aset_self _ _ _, ?_, ?_⟩
    · show afind (ensure_shopping_cart oid cid now
        (ensure_air oid cid aid now st.2).2.2).2.2.airs aid = _
      rw [(ensure_shopping_cart_frame _ _ _ _).2.2.1]
      exact ensure_air_finds _ _ _ _ _
    · show (ensure_air oid cid aid now st.2).1.air_id ∈ _ ++
        [(ensure_air oid cid aid now st.2).1.air_id]
      exact List.mem_append.mpr (Or.inr (List.mem_singleton.mpr rfl))
    · intro hnone
      rw [ensure_air_none oid cid now hnone]
      exact ⟨rfl, rfl, rfl⟩

/-- With all three path ids present, `ensure_from_request` leaves a found
air and a found cart whose `selected_airs` carries the air's id; a created
air takes its identity fields from the path ids. -/
theorem efr_links (ctx : RequestContext) (pp : PathParams) (now : String) (s₀ : MockStateStore)
    (h1 : effParam pp.orderId pp.order_id ≠ "")
    (h2 : effParam pp.shoppingCartId pp.shopping_cart_id ≠ "")
    (h3 : effParam pp.airId pp.air_id ≠ "") :
    ∃ air cart,
      afind (ensure_from_request ctx pp now s₀).2.airs (effParam pp.airId pp.air_id) =
        some air ∧
      afind (ensure_from_request ctx pp now s₀).2.shopping_carts
        (effParam pp.shoppingCartId pp.shopping_cart_id) = some cart ∧
      air.air_id ∈ cart.selected_airs ∧
      (afind s₀.airs (effParam pp.airId pp.air_id) = none →
        air.air_id = effParam pp.airId pp.air_id ∧
        air.order_id = effParam pp.orderId pp.order_id ∧
        air.shopping_cart_id = effParam pp.shoppingCartId pp.shopping_cart_id) := by
  have heq : (efrStage2 (effParam pp.orderId pp.order_id)
      (effParam pp.shoppingCartId pp.shopping_cart_id) now
      (efrStage1 (effParam pp.orderId pp.order_id) ctx now
        ((if (ensure_conversation ctx now s₀).2.1 then [wConvCreated ctx.conversation_id]
          else []),
         (ensure_conversation ctx now s₀).2.2))).2.airs = s₀.airs := by
    rw [(efrStage2_frame _ _ _ _).2.2.1, (efrStage1_frame _ _ _ _).2.2.1]
    exact (ensure_conversation_frame _ _ _).2.2.1
  obtain ⟨air, cart, hair, hcart, hmem, hcreate⟩ :=
    efrStage3_links (effParam pp.orderId pp.order_id)
      (effParam pp.shoppingCartId pp.shopping_cart_id) (effParam pp.airId pp.air_id) now
      (efrStage2 (effParam pp.orderId pp.order_id)
        (effParam pp.shoppingCartId pp.shopping_cart_id) now
        (efrStage1 (effParam pp.orderId pp.order_id) ctx now
          ((if (ensure_conversation ctx now s₀).2.1 then [wConvCreated ctx.conversation_id]
            else []),
           (ensure_conversation ctx now s₀).2.2))) ⟨h1, h2, h3⟩
  refine ⟨air, cart, ?_, ?_, hmem, ?_⟩
  · rw [efr_as_stages, (efrStage4_frame _ _ _).2.2.2]
    exact hair
  · rw [efr_as_stages, (efrStage4_frame _ _ _).2.2.1]
    exact hcart
  · intro hnone
    exact hcreate (heq ▸ hnone)

/-- The warnings of `ensure_from_request`: exactly one `AUTO_CREATED` entry
per entity created, in conversation/order/cart/air/profile order, each
condition reading the original store. -/
theorem efr_warnings (ctx : RequestContext) (pp : PathParams) (now : String)
    (s₀ : MockStateStore) :
    (ensure_from_request ctx pp now s₀).1 =
      ((((if (afind s₀.conversations ctx.conversation_id).isNone
          then [wConvCreated ctx.conversation_id] else []) ++
        (if effParam pp.orderId pp.order_id ≠ "" ∧
            (afind s₀.orders (effParam pp.orderId pp.order_id)).isNone
          then [wOrderCreated (effParam pp.orderId pp.order_id)] else [])) ++
        (if effParam pp.orderId pp.order_id ≠ "" ∧
            effParam pp.shoppingCartId pp.shopping_cart_id ≠ "" ∧
            (afind s₀.shopping_carts (effParam pp.shoppingCartId pp.shopping_cart_id)).isNone
          then [wCartCreated (effParam pp.orderId pp.order_id)
            (effParam pp.shoppingCartId pp.shopping_cart_id)] else [])) ++
        (if effParam pp.orderId pp.order_id ≠ "" ∧
            effParam pp.shoppingCartId pp.shopping_cart_id ≠ "" ∧
            effParam pp.airId pp.air_id ≠ "" ∧
            (afind s₀.airs (effParam pp.airId pp.air_id)).isNone
          then [wAirCreated (effParam pp.orderId pp.order_id)
            (effParam pp.shoppingCartId pp.shopping_cart_id)
            (effParam pp.airId pp.air_id)] else [])) ++
        (if effParam pp.profileId pp.profile_id ≠ "" ∧
            (afind s₀.profiles (effParam pp.profileId pp.profile_id)).isNone
          then [wProfileCreated (effParam pp.profileId pp.profile_id)] else []) := by
  rw [efr_as_stages, efrStage4_warnings, efrStage3_warnings, efrStage2_warnings,
    efrStage1_warnings]
  rw [(efrStage3_frame _ _ _ _ _).2.2, (efrStage2_frame _ _ _ _).2.2.2,
    (efrStage1_frame _ _ _ _).2.2.2, (ensure_conversation_frame _ _ _).2.2.2]
  rw [(efrStage2_frame _ _ _ _).2.2.1, (efrStage1_frame _ _ _ _).2.2.1,
    (ensure_conversation_frame _ _ _).2.2.1]
  rw [(efrStage1_frame _ _ _ _).2.1, (ensure_conversation_frame _ _ _).2.1]
  rw [(ensure_conversation_frame _ _ _).1]
  rw [ensure_conversation_created]

/-- Path params carrying order O1, cart C1 and air A1. -/
def pp0 : PathParams :=
  { orderId := some "O1", shoppingCartId := some "C1", airId := some "A1" }

/-- C8.  `ensure_from_request`: the conversation is always ensured; the order
only if an order id is in the path (otherwise orders are untouched), the cart
only if order and cart ids are present, the air only if all three are — and
then the air exists, the cart exists and carries the air's id in its
`selected_airs`, with a created air linked to the path ids.  The warnings are
exactly one `AUTO_CREATED` entry per entity actually created against the
original store.  Concretely, on a fresh store with all three ids: four
entities are created (four warnings) but the global revision advances five
times — the extra bump is the cart/selected_airs link — and the cart ends
with `selected_airs = [A1]` at revision 5. -/
theorem ensure_from_request_spec :
    (∀ (ctx : RequestContext) (pp : PathParams) (now : String) (s₀ : MockStateStore)
       (oid cid aid pid : String),
      oid = effParam pp.orderId pp.order_id →
      cid = effParam pp.shoppingCartId pp.shopping_cart_id →
      aid = effParam pp.airId pp.air_id →
      pid = effParam pp.profileId pp.profile_id →
      (∃ c, afind (ensure_from_request ctx pp now s₀).2.conversations ctx.conversation_id =
        some c) ∧
      (oid = "" → (ensure_from_request ctx pp now s₀).2.orders = s₀.orders) ∧
      (oid ≠ "" → ∃ o, afind (ensure_from_request ctx pp now s₀).2.orders oid = some o) ∧
      (oid = "" ∨ cid = "" →
        (ensure_from_request ctx pp now s₀).2.shopping_carts = s₀.shopping_carts) ∧
      (oid = "" ∨ cid = "" ∨ aid = "" →
        (ensure_from_request ctx pp now s₀).2.airs = s₀.airs) ∧
      (oid ≠ "" → cid ≠ "" → aid ≠ "" →
        ∃ air cart,
          afind (ensure_from_request ctx pp now s₀).2.airs aid = some air ∧
          afind (ensure_from_request ctx pp now s₀).2.shopping_carts cid = some cart ∧
          air.air_id ∈ cart.selected_airs ∧
          (afind s₀.airs aid = none →
            air.air_id = aid ∧ air.order_id = oid ∧ air.shopping_cart_id = cid)) ∧
      ((ensure_from_request ctx pp now s₀).1 =
        ((((if (afind s₀.conversations ctx.conversation_id).isNone
            then [wConvCreated ctx.conversation_id] else []) ++
          (if oid ≠ "" ∧ (afind s₀.orders oid).isNone then [wOrderCreated oid] else [])) ++
          (if oid ≠ "" ∧ cid ≠ "" ∧ (afind s₀.shopping_carts cid).isNone
            then [wCartCreated oid cid] else [])) ++
          (if oid ≠ "" ∧ cid ≠ "" ∧ aid ≠ "" ∧ (afind s₀.airs aid).isNone
            then [wAirCreated oid cid aid] else [])) ++
          (if pid ≠ "" ∧ (afind s₀.profiles pid).isNone then [wProfileCreated pid]
            else []))) ∧
    ((ensure_from_request ctx0 pp0 "t1" s0).1 =
      [wConvCreated "conv-1", wOrderCreated "O1", wCartCreated "O1" "C1",
       wAirCreated "O1" "C1" "A1"] ∧
     (ensure_from_request ctx0 pp0 "t1" s0).2.global_revision = 5 ∧
     ∃ cart, afind (ensure_from_request ctx0 pp0 "t1" s0).2.shopping_carts "C1" = some cart ∧
       cart.selected_airs = ["A1"] ∧ cart.revision = 5) := by
  constructor
  · intro ctx pp now s₀ oid cid aid pid hoid hcid haid hpid
    subst hoid
    subst hcid
    subst haid
    subst hpid
    refine ⟨?_, ?_, ?_, ?_, ?_, ?_, ?_⟩
    · rw [efr_as_stages, (efrStage4_frame _ _ _).1, (efrStage3_frame _ _ _ _ _).1,
        (efrStage2_frame _ _ _ _).1, (efrStage1_frame _ _ _ _).1]
      exact ⟨_, ensure_conversation_finds ctx now s₀⟩
    · intro h
      rw [efr_as_stages, (efrStage4_frame _ _ _).2.1]
      rw [efrStage3_id _ _ (fun hc => hc.1 h)]
      rw [efrStage2_id _ _ (fun hc => hc.1 h)]
      rw [efrStage1_id _ _ _ (fun hh => hh h)]
      exact (ensure_conversation_frame _ _ _).1
    · intro h
      rw [efr_as_stages, (efrStage4_frame _ _ _).2.1, (efrStage3_frame _ _ _ _ _).2.1,
        (efrStage2_frame _ _ _ _).2.1]
      rw [efrStage1_pos _ _ _ h]
      exact ⟨_, ensure_order_finds _ _ _ _⟩
    · intro h
      have hnc : ¬(effParam pp.orderId pp.order_id ≠ "" ∧
          effParam pp.shoppingCartId pp.shopping_cart_id ≠ "") := by
        intro hc
        rcases h with h | h
        exacts [hc.1 h, hc.2 h]
      rw [efr_as_stages, (efrStage4_frame _ _ _).2.2.1]
      rw [efrStage3_id _ _ (fun hc => hnc ⟨hc.1, hc.2.1⟩)]
      rw [efrStage2_id _ _ hnc]
      rw [(efrStage1_frame _ _ _ _).2.1]
      exact (ensure_conversation_frame _ _ _).2.1
    · intro h
      have hnc : ¬(effParam pp.orderId pp.order_id ≠ "" ∧
          effParam pp.shoppingCartId pp.shopping_cart_id ≠ "" ∧
          effParam pp.airId pp.air_id ≠ "") := by
        intro hc
        rcases h with h | h | h
        exacts [hc.1 h, hc.2.1 h, hc.2.2 h]
      rw [efr_as_stages, (efrStage4_frame _ _ _).2.2.2]
      rw [efrStage3_airs _ _ _ _ _ hnc]
      rw [(efrStage2_frame _ _ _ _).2.2.1, (efrStage1_frame _ _ _ _).2.2.1]
      exact (ensure_conversation_frame _ _ _).2.2.1
    · intro h1 h2 h3
      exact efr_links ctx pp now s₀ h1 h2 h3
    · exact efr_warnings ctx pp now s₀
  · exact ⟨rfl, rfl, ⟨_, rfl, rfl, rfl⟩⟩

/-- Witness for the C8 theorem: its order-existence part at a concrete call
— after `ensure_from_request` with path ids O1/C1/A1 on the fresh store, an
order is stored under "O1". -/
theorem ensure_from_request_spec_witness :
    ∃ o, afind (ensure_from_request ctx0 pp0 "t1" s0).2.orders "O1" = some o :=
  (ensure_from_request_spec.1 ctx0 pp0 "t1" s0 "O1" "C1" "A1" "" rfl rfl rfl rfl).2.2.1
    (by decide)

end IbeMock
